/-
Verification of the LSM303DLHC streaming detector algorithms of
lsm303algo.c in a real-number model.

Modelling conventions:
- C float values and arithmetic are modelled over the real numbers.
- The uint8_t counters are naturals; an increment that could wrap in C
  is written with an explicit reduction mod 256.
- sqrtf is Real.sqrt, fabsf is abs, atan2f is the argument of a complex
  number, acosf is Real.arccos.
- The static locals of each C function become a state structure; each
  function becomes a step from a state and the call arguments to the
  new state and the returned value.
- The out-parameters pitch, roll, yaw of the orientation estimators are
  written only on the ready path, so a call is modelled as returning the
  C return flag together with an Option of the angle triple (none on the
  warm-up path where the C code leaves the out-parameters untouched).
-/
import Mathlib

noncomputable section

/-- Warm-up length, lsm303algo.h line 11: `#define CNTSETUP 32U`. -/
def CNTSETUP : ℕ := 32

/-- The RAD2DEG literal of lsm303algo.c (57.295779513082320876F), the
degrees-per-radian constant 180 / pi. -/
def RAD2DEG : ℝ := 180 / Real.pi

/-- C `atan2f(y, x)`: the angle in (-pi, pi] of the point (x, y),
i.e. the complex argument of x + y i. -/
def atan2 (y x : ℝ) : ℝ := Complex.arg ⟨x, y⟩

/-- The exponential smoothing primitive used throughout lsm303algo.c:
`alpha * s + (1.0F - alpha) * prev`. -/
def lp1 (alpha prev s : ℝ) : ℝ := alpha * s + (1 - alpha) * prev

/-- One scalar Kalman update, the per-axis block repeated in `motionK`
(lines 100-113) and `orientK` (lines 311-319): error prediction,
gain, estimate update, error update.  Returns (estimate, error). -/
def kalman1 (f e meas Q R : ℝ) : ℝ × ℝ :=
  let e1 := e + Q
  let K := e1 / (e1 + R)
  (f + K * (meas - f), e1 * (1 - K))

/-- Euclidean norm of a 3-vector, C `sqrtf(x*x + y*y + z*z)`. -/
def vnorm (x y z : ℝ) : ℝ := Real.sqrt (x * x + y * y + z * z)

/-- The static locals of `motionLP` (lsm303algo.c lines 25-34). -/
structure MotionLPState where
  setup : ℕ
  smpl : ℕ
  pX : ℝ
  pY : ℝ
  pZ : ℝ
  fX : ℝ
  fY : ℝ
  fZ : ℝ

/-- Zero-initialized statics of `motionLP`. -/
def motionLPinit : MotionLPState := ⟨0, 0, 0, 0, 0, 0, 0, 0⟩

/-- One call of `motionLP` (lsm303algo.c lines 23-70). -/
def motionLP (s : MotionLPState) (x y z alpha delta : ℝ) (sample : ℕ) :
    MotionLPState × ℝ :=
  if s.setup = 0 then
    ({ s with fX := x, fY := y, fZ := z, setup := s.setup + 1 }, 0)
  else
    let fX := lp1 alpha s.fX x
    let fY := lp1 alpha s.fY y
    let fZ := lp1 alpha s.fZ z
    if s.setup < CNTSETUP then
      ({ s with fX := fX, fY := fY, fZ := fZ,
                pX := fX, pY := fY, pZ := fZ, setup := s.setup + 1 }, 0)
    else if s.smpl < sample then
      ({ s with fX := fX, fY := fY, fZ := fZ, smpl := (s.smpl + 1) % 256 }, 0)
    else
      let dX := |fX - s.pX|
      let dY := |fY - s.pY|
      let dZ := |fZ - s.pZ|
      let m := vnorm dX dY dZ
      if delta < m then
        ({ s with fX := fX, fY := fY, fZ := fZ, smpl := 0, setup := 0 }, m)
      else
        ({ s with fX := fX, fY := fY, fZ := fZ, smpl := 0 }, 0)

/-- The trigger magnitude `motionLP` computes on a check tick: the
Euclidean distance between the freshly filtered vector and the stored
snapshot (lsm303algo.c lines 44-46 and 59-63). -/
def motionLPmag (s : MotionLPState) (x y z alpha : ℝ) : ℝ :=
  let fX := lp1 alpha s.fX x
  let fY := lp1 alpha s.fY y
  let fZ := lp1 alpha s.fZ z
  vnorm |fX - s.pX| |fY - s.pY| |fZ - s.pZ|

/-- The static locals of `motionK` (lsm303algo.c lines 74-87). -/
structure MotionKState where
  setup : ℕ
  smpl : ℕ
  fX : ℝ
  fY : ℝ
  fZ : ℝ
  eX : ℝ
  eY : ℝ
  eZ : ℝ
  pX : ℝ
  pY : ℝ
  pZ : ℝ

/-- Zero-initialized statics of `motionK`. -/
def motionKinit : MotionKState := ⟨0, 0, 0, 0, 0, 0, 0, 0, 0, 0, 0⟩

/-- One call of `motionK` (lsm303algo.c lines 72-138). -/
def motionK (s : MotionKState) (x y z Q R E delta : ℝ) (sample : ℕ) :
    MotionKState × ℝ :=
  if s.setup = 0 then
    ({ s with fX := x, fY := y, fZ := z,
              eX := E, eY := E, eZ := E, setup := s.setup + 1 }, 0)
  else
    let kx := kalman1 s.fX s.eX x Q R
    let ky := kalman1 s.fY s.eY y Q R
    let kz := kalman1 s.fZ s.eZ z Q R
    if s.setup < CNTSETUP then
      ({ s with fX := kx.1, fY := ky.1, fZ := kz.1,
                eX := kx.2, eY := ky.2, eZ := kz.2,
                pX := kx.1, pY := ky.1, pZ := kz.1, setup := s.setup + 1 }, 0)
    else if s.smpl < sample then
      ({ s with fX := kx.1, fY := ky.1, fZ := kz.1,
                eX := kx.2, eY := ky.2, eZ := kz.2,
                smpl := (s.smpl + 1) % 256 }, 0)
    else
      let dX := |kx.1 - s.pX|
      let dY := |ky.1 - s.pY|
      let dZ := |kz.1 - s.pZ|
      let m := vnorm dX dY dZ
      if delta < m ∧ m < 1 then
        ({ s with fX := kx.1, fY := ky.1, fZ := kz.1,
                  eX := kx.2, eY := ky.2, eZ := kz.2,
                  smpl := 0, setup := 0 }, m)
      else
        ({ s with fX := kx.1, fY := ky.1, fZ := kz.1,
                  eX := kx.2, eY := ky.2, eZ := kz.2, smpl := 0 }, 0)

/-- The trigger magnitude `motionK` computes on a check tick
(lsm303algo.c lines 127-131). -/
def motionKmag (s : MotionKState) (x y z Q R : ℝ) : ℝ :=
  let kx := kalman1 s.fX s.eX x Q R
  let ky := kalman1 s.fY s.eY y Q R
  let kz := kalman1 s.fZ s.eZ z Q R
  vnorm |kx.1 - s.pX| |ky.1 - s.pY| |kz.1 - s.pZ|

/-- The static locals of `distortionHP` (lsm303algo.c lines 142-152). -/
structure DistortionHPState where
  setup : ℕ
  iX : ℝ
  iY : ℝ
  iZ : ℝ
  oX : ℝ
  oY : ℝ
  oZ : ℝ
  M : ℝ

/-- Zero-initialized statics of `distortionHP`. -/
def distortionHPinit : DistortionHPState := ⟨0, 0, 0, 0, 0, 0, 0, 0⟩

/-- One call of `distortionHP` (lsm303algo.c lines 140-186). -/
def distortionHP (s : DistortionHPState) (x y z alpha delta : ℝ) :
    DistortionHPState × ℝ :=
  let oX := alpha * (s.oX + x - s.iX)
  let oY := alpha * (s.oY + y - s.iY)
  let oZ := alpha * (s.oZ + z - s.iZ)
  let dX := x - oX
  let dY := y - oY
  let dZ := z - oZ
  let m := vnorm dX dY dZ
  if s.setup = 0 then
    ({ setup := s.setup + 1, iX := x, iY := y, iZ := z,
       oX := oX, oY := oY, oZ := oZ, M := m }, 0)
  else if s.setup < CNTSETUP then
    ({ setup := s.setup + 1, iX := x, iY := y, iZ := z,
       oX := oX, oY := oY, oZ := oZ, M := lp1 alpha s.M m }, 0)
  else
    let d := |s.M - m|
    if delta < d then
      ({ s with setup := 0, iX := x, iY := y, iZ := z,
                oX := oX, oY := oY, oZ := oZ }, d)
    else
      ({ s with iX := x, iY := y, iZ := z,
                oX := oX, oY := oY, oZ := oZ }, 0)

/-- The instantaneous high-pass residual magnitude `m` computed by
`distortionHP` (lsm303algo.c lines 154-165). -/
def distortionHPmag (s : DistortionHPState) (x y z alpha : ℝ) : ℝ :=
  vnorm (x - alpha * (s.oX + x - s.iX)) (y - alpha * (s.oY + y - s.iY))
    (z - alpha * (s.oZ + z - s.iZ))

/-- The static locals of `distortionLP` (lsm303algo.c lines 190-194). -/
structure DistortionLPState where
  setup : ℕ
  aX : ℝ
  aY : ℝ
  aZ : ℝ

/-- Zero-initialized statics of `distortionLP`. -/
def distortionLPinit : DistortionLPState := ⟨0, 0, 0, 0⟩

/-- One call of `distortionLP` (lsm303algo.c lines 188-224). -/
def distortionLP (s : DistortionLPState) (x y z alpha delta : ℝ) :
    DistortionLPState × ℝ :=
  if s.setup = 0 then
    ({ setup := s.setup + 1, aX := x, aY := y, aZ := z }, 0)
  else
    let dX := x - s.aX
    let dY := y - s.aY
    let dZ := z - s.aZ
    let aX := lp1 alpha s.aX x
    let aY := lp1 alpha s.aY y
    let aZ := lp1 alpha s.aZ z
    if s.setup < CNTSETUP then
      ({ setup := s.setup + 1, aX := aX, aY := aY, aZ := aZ }, 0)
    else
      let m := vnorm dX dY dZ
      if delta < m then
        ({ setup := 0, aX := aX, aY := aY, aZ := aZ }, m)
      else
        ({ s with aX := aX, aY := aY, aZ := aZ }, 0)

/-- The static locals of `orientLP` (lsm303algo.c lines 229-236). -/
structure OrientLPState where
  setup : ℕ
  aX : ℝ
  aY : ℝ
  aZ : ℝ
  mX : ℝ
  mY : ℝ
  mZ : ℝ

/-- Zero-initialized statics of `orientLP`. -/
def orientLPinit : OrientLPState := ⟨0, 0, 0, 0, 0, 0, 0⟩

/-- One call of `orientLP` (lsm303algo.c lines 226-280).  The two input
arrays are passed as six scalars.  The returned natural is the C return
value (1 = not ready, 0 = computed); the Option holds the angles
(pitch, roll, yaw) written through the out-pointers on the ready path. -/
def orientLP (s : OrientLPState) (ax ay az mx my mz alpha : ℝ) :
    OrientLPState × ℕ × Option (ℝ × ℝ × ℝ) :=
  if s.setup = 0 then
    ({ setup := s.setup + 1, aX := ax, aY := ay, aZ := az,
       mX := mx, mY := my, mZ := mz }, 1, none)
  else
    let aX := lp1 alpha s.aX ax
    let aY := lp1 alpha s.aY ay
    let aZ := lp1 alpha s.aZ az
    let mX := lp1 alpha s.mX mx
    let mY := lp1 alpha s.mY my
    let mZ := lp1 alpha s.mZ mz
    if s.setup < CNTSETUP then
      ({ setup := s.setup + 1, aX := aX, aY := aY, aZ := aZ,
         mX := mX, mY := mY, mZ := mZ }, 1, none)
    else
      let pitch := atan2 aX (Real.sqrt (aY * aY + aZ * aZ)) * RAD2DEG
      let roll := atan2 aY (Real.sqrt (aX * aX + aZ * aZ)) * RAD2DEG
      let Na := vnorm aX aY aZ
      let naX := aX / Na
      let naY := aY / Na
      let naZ := aZ / Na
      let Nm := vnorm mX mY mZ
      let nmX := mX / Nm
      let nmY := mY / Nm
      let nmZ := mZ / Nm
      let Mx := nmX * naZ - nmZ * naX
      let My := nmY * naZ - nmZ * naY
      let yaw := atan2 My Mx * RAD2DEG
      ({ setup := s.setup, aX := naX, aY := naY, aZ := naZ,
         mX := nmX, mY := nmY, mZ := nmZ }, 0, some (pitch, roll, yaw))

/-- The static locals of `orientK` (lsm303algo.c lines 285-291), the
two three-element arrays written out as scalar fields. -/
structure OrientKState where
  setup : ℕ
  fAx : ℝ
  fAy : ℝ
  fAz : ℝ
  fMx : ℝ
  fMy : ℝ
  fMz : ℝ
  eAx : ℝ
  eAy : ℝ
  eAz : ℝ
  eMx : ℝ
  eMy : ℝ
  eMz : ℝ

/-- Zero-initialized statics of `orientK`. -/
def orientKinit : OrientKState := ⟨0, 0, 0, 0, 0, 0, 0, 0, 0, 0, 0, 0, 0⟩

/-- One call of `orientK` (lsm303algo.c lines 282-346); the three-pass
per-axis loop of lines 309-320 is written out unrolled. -/
def orientK (s : OrientKState) (ax ay az mx my mz Q R E : ℝ) :
    OrientKState × ℕ × Option (ℝ × ℝ × ℝ) :=
  if s.setup = 0 then
    ({ setup := s.setup + 1, fAx := ax, fAy := ay, fAz := az,
       fMx := mx, fMy := my, fMz := mz,
       eAx := E, eAy := E, eAz := E, eMx := E, eMy := E, eMz := E }, 1, none)
  else
    let kax := kalman1 s.fAx s.eAx ax Q R
    let kay := kalman1 s.fAy s.eAy ay Q R
    let kaz := kalman1 s.fAz s.eAz az Q R
    let kmx := kalman1 s.fMx s.eMx mx Q R
    let kmy := kalman1 s.fMy s.eMy my Q R
    let kmz := kalman1 s.fMz s.eMz mz Q R
    if s.setup < CNTSETUP then
      ({ setup := s.setup + 1, fAx := kax.1, fAy := kay.1, fAz := kaz.1,
         fMx := kmx.1, fMy := kmy.1, fMz := kmz.1,
         eAx := kax.2, eAy := kay.2, eAz := kaz.2,
         eMx := kmx.2, eMy := kmy.2, eMz := kmz.2 }, 1, none)
    else
      let pitch := atan2 kax.1 (Real.sqrt (kay.1 * kay.1 + kaz.1 * kaz.1)) * RAD2DEG
      let roll := atan2 kay.1 (Real.sqrt (kax.1 * kax.1 + kaz.1 * kaz.1)) * RAD2DEG
      let Na := vnorm kax.1 kay.1 kaz.1
      let naX := kax.1 / Na
      let naY := kay.1 / Na
      let naZ := kaz.1 / Na
      let Nm := vnorm kmx.1 kmy.1 kmz.1
      let nmX := kmx.1 / Nm
      let nmY := kmy.1 / Nm
      let nmZ := kmz.1 / Nm
      let Mx := nmX * naZ - nmZ * naX
      let My := nmY * naZ - nmZ * naY
      let yaw := atan2 My Mx * RAD2DEG
      ({ setup := s.setup, fAx := naX, fAy := naY, fAz := naZ,
         fMx := nmX, fMy := nmY, fMz := nmZ,
         eAx := kax.2, eAy := kay.2, eAz := kaz.2,
         eMx := kmx.2, eMy := kmy.2, eMz := kmz.2 }, 0, some (pitch, roll, yaw))

/-- The static locals of `inclineLP` (lsm303algo.c lines 350-354). -/
structure InclineLPState where
  setup : ℕ
  aX : ℝ
  aY : ℝ
  aZ : ℝ

/-- Zero-initialized statics of `inclineLP`. -/
def inclineLPinit : InclineLPState := ⟨0, 0, 0, 0⟩

/-- One call of `inclineLP` (lsm303algo.c lines 348-380). -/
def inclineLP (s : InclineLPState) (x y z alpha delta : ℝ) :
    InclineLPState × ℝ :=
  if s.setup = 0 then
    ({ setup := s.setup + 1, aX := x, aY := y, aZ := z }, 0)
  else
    let aX := lp1 alpha s.aX x
    let aY := lp1 alpha s.aY y
    let aZ := lp1 alpha s.aZ z
    if s.setup < CNTSETUP then
      ({ setup := s.setup + 1, aX := aX, aY := aY, aZ := aZ }, 0)
    else
      let theta := Real.arccos (aZ / vnorm aX aY aZ) * RAD2DEG
      if |delta| < theta then
        ({ setup := 0, aX := aX, aY := aY, aZ := aZ }, theta)
      else
        ({ s with aX := aX, aY := aY, aZ := aZ }, 0)

/-- The incline angle `theta` computed by `inclineLP` on a check tick
(lsm303algo.c lines 364-373). -/
def inclineLPtheta (s : InclineLPState) (x y z alpha : ℝ) : ℝ :=
  Real.arccos (lp1 alpha s.aZ z /
    vnorm (lp1 alpha s.aX x) (lp1 alpha s.aY y) (lp1 alpha s.aZ z)) * RAD2DEG

/-- The detection stages of lsm303algo.h lines 103-107. -/
inductive stage_t where
  | STAGE_INIT : stage_t
  | STAGE_WEIGHLESSNESS : stage_t
  | STAGE_FALL : stage_t
  deriving DecidableEq

/-- One call of `detectFall` (lsm303algo.c lines 382-407): the static
stage is the state; the function returns the post-transition stage,
which is also the new state. -/
def detectFall (stage : stage_t) (x y z wThs iThs : ℝ) : stage_t :=
  let M := Real.sqrt (x * x + y * y + z * z)
  match stage with
  | .STAGE_INIT =>
      if M < wThs then .STAGE_WEIGHLESSNESS else .STAGE_INIT
  | .STAGE_WEIGHLESSNESS =>
      if iThs < M then .STAGE_FALL else .STAGE_WEIGHLESSNESS
  | .STAGE_FALL =>
      if wThs + iThs = 0 then .STAGE_INIT else .STAGE_FALL

/-- Run a stateful step function over a list of per-call inputs,
collecting the returned values of every call. -/
def runList {σ α β : Type} (step : σ → α → σ × β) :
    σ → List α → σ × List β
  | s, [] => (s, [])
  | s, a :: as =>
    let r := step s a
    let rest := runList step r.1 as
    (rest.1, r.2 :: rest.2)

theorem motionLP_warm (s : MotionLPState) (x y z alpha delta : ℝ) (sample : ℕ)
    (h : s.setup < CNTSETUP) :
    (motionLP s x y z alpha delta sample).2 = 0 ∧
      (motionLP s x y z alpha delta sample).1.setup = s.setup + 1 := by
  rcases Nat.eq_zero_or_pos s.setup with h0 | h0
  · simp [motionLP, h0]
  · have h0' : ¬ s.setup = 0 := by omega
    simp [motionLP, h0', h]

theorem motionK_warm (s : MotionKState) (x y z Q R E delta : ℝ) (sample : ℕ)
    (h : s.setup < CNTSETUP) :
    (motionK s x y z Q R E delta sample).2 = 0 ∧
      (motionK s x y z Q R E delta sample).1.setup = s.setup + 1 := by
  rcases Nat.eq_zero_or_pos s.setup with h0 | h0
  · simp [motionK, h0]
  · have h0' : ¬ s.setup = 0 := by omega
    simp [motionK, h0', h]

theorem distortionHP_warm (s : DistortionHPState) (x y z alpha delta : ℝ)
    (h : s.setup < CNTSETUP) :
    (distortionHP s x y z alpha delta).2 = 0 ∧
      (distortionHP s x y z alpha delta).1.setup = s.setup + 1 := by
  rcases Nat.eq_zero_or_pos s.setup with h0 | h0
  · simp [distortionHP, h0]
  · have h0' : ¬ s.setup = 0 := by omega
    simp [distortionHP, h0', h]

theorem distortionLP_warm (s : DistortionLPState) (x y z alpha delta : ℝ)
    (h : s.setup < CNTSETUP) :
    (distortionLP s x y z alpha delta).2 = 0 ∧
      (distortionLP s x y z alpha delta).1.setup = s.setup + 1 := by
  rcases Nat.eq_zero_or_pos s.setup with h0 | h0
  · simp [distortionLP, h0]
  · have h0' : ¬ s.setup = 0 := by omega
    simp [distortionLP, h0', h]

theorem orientLP_warm (s : OrientLPState) (ax ay az mx my mz alpha : ℝ)
    (h : s.setup < CNTSETUP) :
    (orientLP s ax ay az mx my mz alpha).2 = (1, none) ∧
      (orientLP s ax ay az mx my mz alpha).1.setup = s.setup + 1 := by
  rcases Nat.eq_zero_or_pos s.setup with h0 | h0
  · simp [orientLP, h0]
  · have h0' : ¬ s.setup = 0 := by omega
    simp [orientLP, h0', h]

theorem orientK_warm (s : OrientKState) (ax ay az mx my mz Q R E : ℝ)
    (h : s.setup < CNTSETUP) :
    (orientK s ax ay az mx my mz Q R E).2 = (1, none) ∧
      (orientK s ax ay az mx my mz Q R E).1.setup = s.setup + 1 := by
  rcases Nat.eq_zero_or_pos s.setup with h0 | h0
  · simp [orientK, h0]
  · have h0' : ¬ s.setup = 0 := by omega
    simp [orientK, h0', h]

theorem inclineLP_warm (s : InclineLPState) (x y z alpha delta : ℝ)
    (h : s.setup < CNTSETUP) :
    (inclineLP s x y z alpha delta).2 = 0 ∧
      (inclineLP s x y z alpha delta).1.setup = s.setup + 1 := by
  rcases Nat.eq_zero_or_pos s.setup with h0 | h0
  · simp [inclineLP, h0]
  · have h0' : ¬ s.setup = 0 := by omega
    simp [inclineLP, h0', h]

theorem run_warm {σ α β : Type} (step : σ → α → σ × β) (cnt : σ → ℕ) (b : β)
    (hstep : ∀ s a, cnt s < CNTSETUP →
      (step s a).2 = b ∧ cnt (step s a).1 = cnt s + 1) :
    ∀ (ins : List α) (s : σ), cnt s + ins.length ≤ CNTSETUP →
      ∀ o ∈ (runList step s ins).2, o = b := by
  intro ins
  induction ins with
  | nil =>
    intro s _ o ho
    simp [runList] at ho
  | cons a as ih =>
    intro s h o ho
    have hc : cnt s < CNTSETUP := by
      simp only [List.length_cons] at h
      omega
    obtain ⟨h1, h2⟩ := hstep s a hc
    simp only [runList, List.mem_cons] at ho
    rcases ho with ho | ho
    · rw [ho, h1]
    · refine ih (step s a).1 ?_ o ho
      rw [h2]
      simp only [List.length_cons] at h
      omega

/-- Claim C3: for every input stream, each of the first 32 calls (the
warm-up length CNTSETUP) to any detector returns zero trigger magnitude
(motionLP, motionK, distortionHP, distortionLP, inclineLP) or the
not-ready flag 1 with no angles written (orientLP, orientK), regardless
of the input values supplied on those calls. -/
theorem C3_warmup_all_detectors_silent
    (ins : List (ℝ × ℝ × ℝ)) (oins : List ((ℝ × ℝ × ℝ) × ℝ × ℝ × ℝ))
    (alpha delta Q R E : ℝ) (sample : ℕ)
    (hlen : ins.length ≤ CNTSETUP) (holen : oins.length ≤ CNTSETUP) :
    (∀ o ∈ (runList (fun s i => motionLP s i.1 i.2.1 i.2.2 alpha delta sample)
        motionLPinit ins).2, o = 0) ∧
    (∀ o ∈ (runList (fun s i => motionK s i.1 i.2.1 i.2.2 Q R E delta sample)
        motionKinit ins).2, o = 0) ∧
    (∀ o ∈ (runList (fun s i => distortionHP s i.1 i.2.1 i.2.2 alpha delta)
        distortionHPinit ins).2, o = 0) ∧
    (∀ o ∈ (runList (fun s i => distortionLP s i.1 i.2.1 i.2.2 alpha delta)
        distortionLPinit ins).2, o = 0) ∧
    (∀ o ∈ (runList (fun s i => inclineLP s i.1 i.2.1 i.2.2 alpha delta)
        inclineLPinit ins).2, o = 0) ∧
    (∀ o ∈ (runList
        (fun s i => orientLP s i.1.1 i.1.2.1 i.1.2.2 i.2.1 i.2.2.1 i.2.2.2 alpha)
        orientLPinit oins).2, o = (1, none)) ∧
    (∀ o ∈ (runList
        (fun s i => orientK s i.1.1 i.1.2.1 i.1.2.2 i.2.1 i.2.2.1 i.2.2.2 Q R E)
        orientKinit oins).2, o = (1, none)) := by
  refine ⟨?_, ?_, ?_, ?_, ?_, ?_, ?_⟩
  · exact run_warm _ (fun s => s.setup) 0
      (fun s a hc => motionLP_warm s a.1 a.2.1 a.2.2 alpha delta sample hc)
      ins motionLPinit (by simpa [motionLPinit] using hlen)
  · exact run_warm _ (fun s => s.setup) 0
      (fun s a hc => motionK_warm s a.1 a.2.1 a.2.2 Q R E delta sample hc)
      ins motionKinit (by simpa [motionKinit] using hlen)
  · exact run_warm _ (fun s => s.setup) 0
      (fun s a hc => distortionHP_warm s a.1 a.2.1 a.2.2 alpha delta hc)
      ins distortionHPinit (by simpa [distortionHPinit] using hlen)
  · exact run_warm _ (fun s => s.setup) 0
      (fun s a hc => distortionLP_warm s a.1 a.2.1 a.2.2 alpha delta hc)
      ins distortionLPinit (by simpa [distortionLPinit] using hlen)
  · exact run_warm _ (fun s => s.setup) 0
      (fun s a hc => inclineLP_warm s a.1 a.2.1 a.2.2 alpha delta hc)
      ins inclineLPinit (by simpa [inclineLPinit] using hlen)
  · exact run_warm _ (fun s => s.setup) (1, none)
      (fun s a hc =>
        orientLP_warm s a.1.1 a.1.2.1 a.1.2.2 a.2.1 a.2.2.1 a.2.2.2 alpha hc)
      oins orientLPinit (by simpa [orientLPinit] using holen)
  · exact run_warm _ (fun s => s.setup) (1, none)
      (fun s a hc =>
        orientK_warm s a.1.1 a.1.2.1 a.1.2.2 a.2.1 a.2.2.1 a.2.2.2 Q R E hc)
      oins orientKinit (by simpa [orientKinit] using holen)

/-- Witness for C3 at a concrete one-call input stream. -/
theorem C3_warmup_all_detectors_silent_witness :
    ([((1:ℝ), (2:ℝ), (3:ℝ))] : List (ℝ × ℝ × ℝ)).length ≤ CNTSETUP ∧
    ([(((1:ℝ), (2:ℝ), (3:ℝ)), ((4:ℝ), (5:ℝ), (6:ℝ)))] :
      List ((ℝ × ℝ × ℝ) × ℝ × ℝ × ℝ)).length ≤ CNTSETUP ∧
    (∀ o ∈ (runList (fun s i => motionLP s i.1 i.2.1 i.2.2 (1/2) (1/10) 4)
        motionLPinit [((1:ℝ), (2:ℝ), (3:ℝ))]).2, o = 0) ∧
    (∀ o ∈ (runList
        (fun s i => orientLP s i.1.1 i.1.2.1 i.1.2.2 i.2.1 i.2.2.1 i.2.2.2 (1/2))
        orientLPinit
        [(((1:ℝ), (2:ℝ), (3:ℝ)), ((4:ℝ), (5:ℝ), (6:ℝ)))]).2, o = (1, none)) := by
  have h := C3_warmup_all_detectors_silent
    [((1:ℝ), (2:ℝ), (3:ℝ))] [(((1:ℝ), (2:ℝ), (3:ℝ)), ((4:ℝ), (5:ℝ), (6:ℝ)))]
    (1/2) (1/10) 0 1 1 4 (by simp [CNTSETUP]) (by simp [CNTSETUP])
  exact ⟨by simp [CNTSETUP], by simp [CNTSETUP], h.1, h.2.2.2.2.2.1⟩

theorem motionLP_counters (s : MotionLPState) (x y z alpha delta : ℝ)
    (sample : ℕ) (hsa : sample ≤ 255) (hd : 0 ≤ delta)
    (hsetup : s.setup ≤ CNTSETUP) (hsmpl : s.smpl ≤ 255) :
    (motionLP s x y z alpha delta sample).1.setup ≤ CNTSETUP ∧
    (s.setup < CNTSETUP →
      (motionLP s x y z alpha delta sample).1.setup = s.setup + 1) ∧
    (s.setup = CNTSETUP →
      (motionLP s x y z alpha delta sample).1.setup = CNTSETUP ∨
      (motionLP s x y z alpha delta sample).1.setup = 0) ∧
    ((motionLP s x y z alpha delta sample).1.setup = 0 ↔
      s.setup = CNTSETUP ∧ sample ≤ s.smpl ∧
        delta < motionLPmag s x y z alpha) ∧
    ((motionLP s x y z alpha delta sample).1.setup = 0 →
      0 < (motionLP s x y z alpha delta sample).2) ∧
    (motionLP s x y z alpha delta sample).1.smpl ≤ 255 ∧
    (s.setup = CNTSETUP → s.smpl < sample →
      (motionLP s x y z alpha delta sample).1.smpl = s.smpl + 1) ∧
    (s.setup = CNTSETUP → sample ≤ s.smpl →
      (motionLP s x y z alpha delta sample).1.smpl = 0) := by
  simp only [CNTSETUP] at hsetup ⊢
  simp only [motionLP, motionLPmag, CNTSETUP]
  split_ifs with h0 h1 h3 h4
  · simp [h0]
    omega
  · simp [h1, Nat.ne_of_lt h1]
    omega
  · have e2 : s.setup = 32 := by omega
    have e3 : ¬ sample ≤ s.smpl := by omega
    have e4 : s.smpl + 1 < 256 := by omega
    simp [e2, e3, Nat.mod_eq_of_lt e4]
    omega
  · have e2 : s.setup = 32 := by omega
    have e3 : sample ≤ s.smpl := by omega
    have hpos : 0 < vnorm |lp1 alpha s.fX x - s.pX| |lp1 alpha s.fY y - s.pY|
        |lp1 alpha s.fZ z - s.pZ| := lt_of_le_of_lt hd h4
    simp [e2, e3, h4, hpos]
  · have e2 : s.setup = 32 := by omega
    have e3 : sample ≤ s.smpl := by omega
    simp [e2, e3, h4]

theorem motionK_counters (s : MotionKState) (x y z Q R E delta : ℝ)
    (sample : ℕ) (hsa : sample ≤ 255) (hd : 0 ≤ delta)
    (hsetup : s.setup ≤ CNTSETUP) (hsmpl : s.smpl ≤ 255) :
    (motionK s x y z Q R E delta sample).1.setup ≤ CNTSETUP ∧
    (s.setup < CNTSETUP →
      (motionK s x y z Q R E delta sample).1.setup = s.setup + 1) ∧
    (s.setup = CNTSETUP →
      (motionK s x y z Q R E delta sample).1.setup = CNTSETUP ∨
      (motionK s x y z Q R E delta sample).1.setup = 0) ∧
    ((motionK s x y z Q R E delta sample).1.setup = 0 ↔
      s.setup = CNTSETUP ∧ sample ≤ s.smpl ∧
        delta < motionKmag s x y z Q R ∧ motionKmag s x y z Q R < 1) ∧
    ((motionK s x y z Q R E delta sample).1.setup = 0 →
      0 < (motionK s x y z Q R E delta sample).2) ∧
    (motionK s x y z Q R E delta sample).1.smpl ≤ 255 ∧
    (s.setup = CNTSETUP → s.smpl < sample →
      (motionK s x y z Q R E delta sample).1.smpl = s.smpl + 1) ∧
    (s.setup = CNTSETUP → sample ≤ s.smpl →
      (motionK s x y z Q R E delta sample).1.smpl = 0) := by
  simp only [CNTSETUP] at hsetup ⊢
  simp only [motionK, motionKmag, CNTSETUP]
  split_ifs with h0 h1 h3 h4
  · simp [h0]
    omega
  · simp [h1, Nat.ne_of_lt h1]
    omega
  · have e2 : s.setup = 32 := by omega
    have e3 : ¬ sample ≤ s.smpl := by omega
    have e4 : s.smpl + 1 < 256 := by omega
    simp [e2, e3, Nat.mod_eq_of_lt e4]
    omega
  · have e2 : s.setup = 32 := by omega
    have e3 : sample ≤ s.smpl := by omega
    have hpos : 0 < vnorm |(kalman1 s.fX s.eX x Q R).1 - s.pX|
        |(kalman1 s.fY s.eY y Q R).1 - s.pY|
        |(kalman1 s.fZ s.eZ z Q R).1 - s.pZ| := lt_of_le_of_lt hd h4.1
    simp [e2, e3, h4.1, h4.2, hpos]
  · have e2 : s.setup = 32 := by omega
    have e3 : sample ≤ s.smpl := by omega
    rw [Classical.not_and_iff_or_not_not] at h4
    rcases h4 with h4 | h4 <;> simp [e2, e3, h4]

theorem distortionHP_counters (s : DistortionHPState) (x y z alpha delta : ℝ)
    (hd : 0 ≤ delta) (hsetup : s.setup ≤ CNTSETUP) :
    (distortionHP s x y z alpha delta).1.setup ≤ CNTSETUP ∧
    (s.setup < CNTSETUP →
      (distortionHP s x y z alpha delta).1.setup = s.setup + 1) ∧
    (s.setup = CNTSETUP →
      (distortionHP s x y z alpha delta).1.setup = CNTSETUP ∨
      (distortionHP s x y z alpha delta).1.setup = 0) ∧
    ((distortionHP s x y z alpha delta).1.setup = 0 ↔
      s.setup = CNTSETUP ∧ delta < |s.M - distortionHPmag s x y z alpha|) ∧
    ((distortionHP s x y z alpha delta).1.setup = 0 →
      0 < (distortionHP s x y z alpha delta).2) := by
  simp only [CNTSETUP] at hsetup ⊢
  simp only [distortionHP, distortionHPmag, CNTSETUP]
  split_ifs with h0 h1 h2
  · simp [h0]
  · simp [h1, Nat.ne_of_lt h1]
    omega
  · have e2 : s.setup = 32 := by omega
    have hpos : 0 < |s.M - vnorm (x - alpha * (s.oX + x - s.iX))
        (y - alpha * (s.oY + y - s.iY)) (z - alpha * (s.oZ + z - s.iZ))| :=
      lt_of_le_of_lt hd h2
    simp [e2, h2, hpos]
  · have e2 : s.setup = 32 := by omega
    simp [e2, h2]

theorem distortionLP_counters (s : DistortionLPState) (x y z alpha delta : ℝ)
    (hd : 0 ≤ delta) (hsetup : s.setup ≤ CNTSETUP) :
    (distortionLP s x y z alpha delta).1.setup ≤ CNTSETUP ∧
    (s.setup < CNTSETUP →
      (distortionLP s x y z alpha delta).1.setup = s.setup + 1) ∧
    (s.setup = CNTSETUP →
      (distortionLP s x y z alpha delta).1.setup = CNTSETUP ∨
      (distortionLP s x y z alpha delta).1.setup = 0) ∧
    ((distortionLP s x y z alpha delta).1.setup = 0 ↔
      s.setup = CNTSETUP ∧ delta < vnorm (x - s.aX) (y - s.aY) (z - s.aZ)) ∧
    ((distortionLP s x y z alpha delta).1.setup = 0 →
      0 < (distortionLP s x y z alpha delta).2) := by
  simp only [CNTSETUP] at hsetup ⊢
  simp only [distortionLP, CNTSETUP]
  split_ifs with h0 h1 h2
  · simp [h0]
  · simp [h1, Nat.ne_of_lt h1]
    omega
  · have e2 : s.setup = 32 := by omega
    have hpos : 0 < vnorm (x - s.aX) (y - s.aY) (z - s.aZ) :=
      lt_of_le_of_lt hd h2
    simp [e2, h2, hpos]
  · have e2 : s.setup = 32 := by omega
    simp [e2, h2]

theorem inclineLP_counters (s : InclineLPState) (x y z alpha delta : ℝ)
    (hsetup : s.setup ≤ CNTSETUP) :
    (inclineLP s x y z alpha delta).1.setup ≤ CNTSETUP ∧
    (s.setup < CNTSETUP →
      (inclineLP s x y z alpha delta).1.setup = s.setup + 1) ∧
    (s.setup = CNTSETUP →
      (inclineLP s x y z alpha delta).1.setup = CNTSETUP ∨
      (inclineLP s x y z alpha delta).1.setup = 0) ∧
    ((inclineLP s x y z alpha delta).1.setup = 0 ↔
      s.setup = CNTSETUP ∧ |delta| < inclineLPtheta s x y z alpha) ∧
    ((inclineLP s x y z alpha delta).1.setup = 0 →
      0 < (inclineLP s x y z alpha delta).2) := by
  simp only [CNTSETUP] at hsetup ⊢
  simp only [inclineLP, inclineLPtheta, CNTSETUP]
  split_ifs with h0 h1 h2
  · simp [h0]
  · simp [h1, Nat.ne_of_lt h1]
    omega
  · have e2 : s.setup = 32 := by omega
    have hpos : 0 < Real.arccos (lp1 alpha s.aZ z /
        vnorm (lp1 alpha s.aX x) (lp1 alpha s.aY y) (lp1 alpha s.aZ z)) *
        RAD2DEG := lt_of_le_of_lt (abs_nonneg delta) h2
    simp [e2, h2, hpos]
  · have e2 : s.setup = 32 := by omega
    simp [e2, h2]

theorem orientLP_counters (s : OrientLPState) (ax ay az mx my mz alpha : ℝ)
    (hsetup : s.setup ≤ CNTSETUP) :
    (orientLP s ax ay az mx my mz alpha).1.setup ≤ CNTSETUP ∧
    (s.setup < CNTSETUP →
      (orientLP s ax ay az mx my mz alpha).1.setup = s.setup + 1) ∧
    (s.setup = CNTSETUP →
      (orientLP s ax ay az mx my mz alpha).1.setup = CNTSETUP) := by
  simp only [CNTSETUP] at hsetup ⊢
  simp only [orientLP, CNTSETUP]
  split_ifs with h0 h1
  · simp [h0]
  · simp [h1, Nat.ne_of_lt h1]
    omega
  · have e2 : s.setup = 32 := by omega
    simp [e2]

theorem orientK_counters (s : OrientKState) (ax ay az mx my mz Q R E : ℝ)
    (hsetup : s.setup ≤ CNTSETUP) :
    (orientK s ax ay az mx my mz Q R E).1.setup ≤ CNTSETUP ∧
    (s.setup < CNTSETUP →
      (orientK s ax ay az mx my mz Q R E).1.setup = s.setup + 1) ∧
    (s.setup = CNTSETUP →
      (orientK s ax ay az mx my mz Q R E).1.setup = CNTSETUP) := by
  simp only [CNTSETUP] at hsetup ⊢
  simp only [orientK, CNTSETUP]
  split_ifs with h0 h1
  · simp [h0]
  · simp [h1, Nat.ne_of_lt h1]
    omega
  · have e2 : s.setup = 32 := by omega
    simp [e2]

/-- Claim C4: for every detector and every call, the warm-up counter
never exceeds CNTSETUP = 32; it increments by exactly one per call while
below the bound, stays saturated at the bound once reached, and returns
to 0 exactly when the detector fires; the decimation counter of the
motion detectors stays within its uint8 range and either advances by
one inside the skip window or resets to 0 on a check tick, never
wrapping around. -/
theorem C4_counters_saturate_and_reset :
    (∀ (s : MotionLPState) (x y z alpha delta : ℝ) (sample : ℕ),
      sample ≤ 255 → 0 ≤ delta → s.setup ≤ CNTSETUP → s.smpl ≤ 255 →
      (motionLP s x y z alpha delta sample).1.setup ≤ CNTSETUP ∧
      (s.setup < CNTSETUP →
        (motionLP s x y z alpha delta sample).1.setup = s.setup + 1) ∧
      (s.setup = CNTSETUP →
        (motionLP s x y z alpha delta sample).1.setup = CNTSETUP ∨
        (motionLP s x y z alpha delta sample).1.setup = 0) ∧
      ((motionLP s x y z alpha delta sample).1.setup = 0 ↔
        s.setup = CNTSETUP ∧ sample ≤ s.smpl ∧
          delta < motionLPmag s x y z alpha) ∧
      ((motionLP s x y z alpha delta sample).1.setup = 0 →
        0 < (motionLP s x y z alpha delta sample).2) ∧
      (motionLP s x y z alpha delta sample).1.smpl ≤ 255 ∧
      (s.setup = CNTSETUP → s.smpl < sample →
        (motionLP s x y z alpha delta sample).1.smpl = s.smpl + 1) ∧
      (s.setup = CNTSETUP → sample ≤ s.smpl →
        (motionLP s x y z alpha delta sample).1.smpl = 0)) ∧
    (∀ (s : MotionKState) (x y z Q R E delta : ℝ) (sample : ℕ),
      sample ≤ 255 → 0 ≤ delta → s.setup ≤ CNTSETUP → s.smpl ≤ 255 →
      (motionK s x y z Q R E delta sample).1.setup ≤ CNTSETUP ∧
      (s.setup < CNTSETUP →
        (motionK s x y z Q R E delta sample).1.setup = s.setup + 1) ∧
      (s.setup = CNTSETUP →
        (motionK s x y z Q R E delta sample).1.setup = CNTSETUP ∨
        (motionK s x y z Q R E delta sample).1.setup = 0) ∧
      ((motionK s x y z Q R E delta sample).1.setup = 0 ↔
        s.setup = CNTSETUP ∧ sample ≤ s.smpl ∧
          delta < motionKmag s x y z Q R ∧ motionKmag s x y z Q R < 1) ∧
      ((motionK s x y z Q R E delta sample).1.setup = 0 →
        0 < (motionK s x y z Q R E delta sample).2) ∧
      (motionK s x y z Q R E delta sample).1.smpl ≤ 255 ∧
      (s.setup = CNTSETUP → s.smpl < sample →
        (motionK s x y z Q R E delta sample).1.smpl = s.smpl + 1) ∧
      (s.setup = CNTSETUP → sample ≤ s.smpl →
        (motionK s x y z Q R E delta sample).1.smpl = 0)) ∧
    (∀ (s : DistortionHPState) (x y z alpha delta : ℝ),
      0 ≤ delta → s.setup ≤ CNTSETUP →
      (distortionHP s x y z alpha delta).1.setup ≤ CNTSETUP ∧
      (s.setup < CNTSETUP →
        (distortionHP s x y z alpha delta).1.setup = s.setup + 1) ∧
      (s.setup = CNTSETUP →
        (distortionHP s x y z alpha delta).1.setup = CNTSETUP ∨
        (distortionHP s x y z alpha delta).1.setup = 0) ∧
      ((distortionHP s x y z alpha delta).1.setup = 0 ↔
        s.setup = CNTSETUP ∧ delta < |s.M - distortionHPmag s x y z alpha|) ∧
      ((distortionHP s x y z alpha delta).1.setup = 0 →
        0 < (distortionHP s x y z alpha delta).2)) ∧
    (∀ (s : DistortionLPState) (x y z alpha delta : ℝ),
      0 ≤ delta → s.setup ≤ CNTSETUP →
      (distortionLP s x y z alpha delta).1.setup ≤ CNTSETUP ∧
      (s.setup < CNTSETUP →
        (distortionLP s x y z alpha delta).1.setup = s.setup + 1) ∧
      (s.setup = CNTSETUP →
        (distortionLP s x y z alpha delta).1.setup = CNTSETUP ∨
        (distortionLP s x y z alpha delta).1.setup = 0) ∧
      ((distortionLP s x y z alpha delta).1.setup = 0 ↔
        s.setup = CNTSETUP ∧ delta < vnorm (x - s.aX) (y - s.aY) (z - s.aZ)) ∧
      ((distortionLP s x y z alpha delta).1.setup = 0 →
        0 < (distortionLP s x y z alpha delta).2)) ∧
    (∀ (s : InclineLPState) (x y z alpha delta : ℝ),
      s.setup ≤ CNTSETUP →
      (inclineLP s x y z alpha delta).1.setup ≤ CNTSETUP ∧
      (s.setup < CNTSETUP →
        (inclineLP s x y z alpha delta).1.setup = s.setup + 1) ∧
      (s.setup = CNTSETUP →
        (inclineLP s x y z alpha delta).1.setup = CNTSETUP ∨
        (inclineLP s x y z alpha delta).1.setup = 0) ∧
      ((inclineLP s x y z alpha delta).1.setup = 0 ↔
        s.setup = CNTSETUP ∧ |delta| < inclineLPtheta s x y z alpha) ∧
      ((inclineLP s x y z alpha delta).1.setup = 0 →
        0 < (inclineLP s x y z alpha delta).2)) ∧
    (∀ (s : OrientLPState) (ax ay az mx my mz alpha : ℝ),
      s.setup ≤ CNTSETUP →
      (orientLP s ax ay az mx my mz alpha).1.setup ≤ CNTSETUP ∧
      (s.setup < CNTSETUP →
        (orientLP s ax ay az mx my mz alpha).1.setup = s.setup + 1) ∧
      (s.setup = CNTSETUP →
        (orientLP s ax ay az mx my mz alpha).1.setup = CNTSETUP)) ∧
    (∀ (s : OrientKState) (ax ay az mx my mz Q R E : ℝ),
      s.setup ≤ CNTSETUP →
      (orientK s ax ay az mx my mz Q R E).1.setup ≤ CNTSETUP ∧
      (s.setup < CNTSETUP →
        (orientK s ax ay az mx my mz Q R E).1.setup = s.setup + 1) ∧
      (s.setup = CNTSETUP →
        (orientK s ax ay az mx my mz Q R E).1.setup = CNTSETUP)) :=
  ⟨motionLP_counters, motionK_counters, distortionHP_counters,
    distortionLP_counters, inclineLP_counters, orientLP_counters,
    orientK_counters⟩

/-- Witness for C4, exercising the motionLP conjunct at the
zero-initialized state. -/
theorem C4_counters_saturate_and_reset_witness :
    (4 : ℕ) ≤ 255 ∧ (0 : ℝ) ≤ 1/10 ∧
    motionLPinit.setup ≤ CNTSETUP ∧ motionLPinit.smpl ≤ 255 ∧
    ((motionLP motionLPinit 0 0 0 (1/2) (1/10) 4).1.setup ≤ CNTSETUP ∧
    (motionLPinit.setup < CNTSETUP →
      (motionLP motionLPinit 0 0 0 (1/2) (1/10) 4).1.setup =
        motionLPinit.setup + 1) ∧
    (motionLPinit.setup = CNTSETUP →
      (motionLP motionLPinit 0 0 0 (1/2) (1/10) 4).1.setup = CNTSETUP ∨
      (motionLP motionLPinit 0 0 0 (1/2) (1/10) 4).1.setup = 0) ∧
    ((motionLP motionLPinit 0 0 0 (1/2) (1/10) 4).1.setup = 0 ↔
      motionLPinit.setup = CNTSETUP ∧ 4 ≤ motionLPinit.smpl ∧
        (1:ℝ)/10 < motionLPmag motionLPinit 0 0 0 (1/2)) ∧
    ((motionLP motionLPinit 0 0 0 (1/2) (1/10) 4).1.setup = 0 →
      0 < (motionLP motionLPinit 0 0 0 (1/2) (1/10) 4).2) ∧
    (motionLP motionLPinit 0 0 0 (1/2) (1/10) 4).1.smpl ≤ 255 ∧
    (motionLPinit.setup = CNTSETUP → motionLPinit.smpl < 4 →
      (motionLP motionLPinit 0 0 0 (1/2) (1/10) 4).1.smpl =
        motionLPinit.smpl + 1) ∧
    (motionLPinit.setup = CNTSETUP → 4 ≤ motionLPinit.smpl →
      (motionLP motionLPinit 0 0 0 (1/2) (1/10) 4).1.smpl = 0)) :=
  ⟨by norm_num, by norm_num, by simp [motionLPinit, CNTSETUP],
    by simp [motionLPinit],
    C4_counters_saturate_and_reset.1 motionLPinit 0 0 0 (1/2) (1/10) 4
      (by norm_num) (by norm_num) (by simp [motionLPinit, CNTSETUP])
      (by simp [motionLPinit])⟩

theorem sqrt_xx0 (a : ℝ) (h : 0 ≤ a) :
    Real.sqrt (a * a + 0 * 0 + 0 * 0) = a := by
  rw [show a * a + 0 * 0 + 0 * 0 = a ^ 2 by ring]
  exact Real.sqrt_sq h

/-- Claim C2: detectFall implements exactly these stage transitions over
the magnitude M = sqrt(x² + y² + z²): Init to Weightlessness when
M < wThs; Weightlessness to Fall when M > iThs; Fall to Init only when
the caller passes the sentinel wThs + iThs == 0; on every other input
while in Fall the stage stays Fall (latched); each call returns the
post-transition stage (the model returns the new static stage, exactly
the value the C function returns).  The concrete conjuncts replay the
trace of spec section 8: M = 0.05 below wThs = 0.3, then M = 2.5 above
iThs = 2.0, then latching, then the sentinel reset. -/
theorem C2_detectFall_transitions :
    (∀ x y z wThs iThs : ℝ, detectFall .STAGE_INIT x y z wThs iThs =
      if Real.sqrt (x * x + y * y + z * z) < wThs then .STAGE_WEIGHLESSNESS
      else .STAGE_INIT) ∧
    (∀ x y z wThs iThs : ℝ, detectFall .STAGE_WEIGHLESSNESS x y z wThs iThs =
      if iThs < Real.sqrt (x * x + y * y + z * z) then .STAGE_FALL
      else .STAGE_WEIGHLESSNESS) ∧
    (∀ x y z wThs iThs : ℝ, detectFall .STAGE_FALL x y z wThs iThs =
      if wThs + iThs = 0 then .STAGE_INIT else .STAGE_FALL) ∧
    (∀ x y z wThs iThs : ℝ, wThs + iThs ≠ 0 →
      detectFall .STAGE_FALL x y z wThs iThs = .STAGE_FALL) ∧
    detectFall .STAGE_INIT (1/20) 0 0 (3/10) 2 = .STAGE_WEIGHLESSNESS ∧
    detectFall .STAGE_WEIGHLESSNESS (5/2) 0 0 (3/10) 2 = .STAGE_FALL ∧
    (∀ x y z : ℝ, detectFall .STAGE_FALL x y z 0 0 = .STAGE_INIT) := by
  refine ⟨fun x y z w i => rfl, fun x y z w i => rfl, fun x y z w i => rfl,
    ?_, ?_, ?_, ?_⟩
  · intro x y z w i h
    simp [detectFall, h]
  · have hm : Real.sqrt ((1:ℝ)/20 * (1/20) + 0 * 0 + 0 * 0) = 1/20 :=
      sqrt_xx0 (1/20) (by norm_num)
    have hd : detectFall .STAGE_INIT (1/20) 0 0 (3/10) 2 =
        if Real.sqrt ((1:ℝ)/20 * (1/20) + 0 * 0 + 0 * 0) < 3/10 then
          .STAGE_WEIGHLESSNESS else .STAGE_INIT := rfl
    rw [hd, hm]
    norm_num
  · have hm : Real.sqrt ((5:ℝ)/2 * (5/2) + 0 * 0 + 0 * 0) = 5/2 :=
      sqrt_xx0 (5/2) (by norm_num)
    have hd : detectFall .STAGE_WEIGHLESSNESS (5/2) 0 0 (3/10) 2 =
        if (2:ℝ) < Real.sqrt ((5:ℝ)/2 * (5/2) + 0 * 0 + 0 * 0) then
          .STAGE_FALL else .STAGE_WEIGHLESSNESS := rfl
    rw [hd, hm]
    norm_num
  · intro x y z
    simp [detectFall]

/-- Witness for C2 at a concrete non-sentinel input in the Fall stage. -/
theorem C2_detectFall_transitions_witness :
    ((3:ℝ)/10 + 2 ≠ 0) ∧
    detectFall .STAGE_FALL 1 0 0 (3/10) 2 = .STAGE_FALL :=
  ⟨by norm_num,
    C2_detectFall_transitions.2.2.2.1 1 0 0 (3/10) 2 (by norm_num)⟩

/-- Claim C5: after warm-up (setup = CNTSETUP), motionLP and motionK
perform the Euclidean-distance check between the current filtered
vector and the stored snapshot on a check tick (smpl has counted past
sample); on every intermediate skip tick they return 0 regardless of
input while the decimation counter advances by one and the snapshot is
left unchanged. -/
theorem C5_decimation_skip_window :
    (∀ (s : MotionLPState) (x y z alpha delta : ℝ) (sample : ℕ),
      sample ≤ 255 → s.setup = CNTSETUP →
      (s.smpl < sample →
        (motionLP s x y z alpha delta sample).2 = 0 ∧
        (motionLP s x y z alpha delta sample).1.smpl = s.smpl + 1 ∧
        (motionLP s x y z alpha delta sample).1.pX = s.pX ∧
        (motionLP s x y z alpha delta sample).1.pY = s.pY ∧
        (motionLP s x y z alpha delta sample).1.pZ = s.pZ) ∧
      (sample ≤ s.smpl →
        (motionLP s x y z alpha delta sample).2 =
          if delta < motionLPmag s x y z alpha
          then motionLPmag s x y z alpha else 0)) ∧
    (∀ (s : MotionKState) (x y z Q R E delta : ℝ) (sample : ℕ),
      sample ≤ 255 → s.setup = CNTSETUP →
      (s.smpl < sample →
        (motionK s x y z Q R E delta sample).2 = 0 ∧
        (motionK s x y z Q R E delta sample).1.smpl = s.smpl + 1 ∧
        (motionK s x y z Q R E delta sample).1.pX = s.pX ∧
        (motionK s x y z Q R E delta sample).1.pY = s.pY ∧
        (motionK s x y z Q R E delta sample).1.pZ = s.pZ) ∧
      (sample ≤ s.smpl →
        (motionK s x y z Q R E delta sample).2 =
          if delta < motionKmag s x y z Q R ∧ motionKmag s x y z Q R < 1
          then motionKmag s x y z Q R else 0)) := by
  constructor
  · intro s x y z alpha delta sample hsa hsetup
    have h0 : ¬ s.setup = 0 := by simp [hsetup, CNTSETUP]
    have h1 : ¬ s.setup < CNTSETUP := by simp [hsetup]
    constructor
    · intro h3
      have e4 : s.smpl + 1 < 256 := by omega
      simp [motionLP, h0, h1, h3, Nat.mod_eq_of_lt e4]
    · intro h3
      have h3' : ¬ s.smpl < sample := by omega
      simp only [motionLP, motionLPmag]
      rw [if_neg h0, if_neg h1, if_neg h3']
      split_ifs with h4 <;> simp
  · intro s x y z Q R E delta sample hsa hsetup
    have h0 : ¬ s.setup = 0 := by simp [hsetup, CNTSETUP]
    have h1 : ¬ s.setup < CNTSETUP := by simp [hsetup]
    constructor
    · intro h3
      have e4 : s.smpl + 1 < 256 := by omega
      simp [motionK, h0, h1, h3, Nat.mod_eq_of_lt e4]
    · intro h3
      have h3' : ¬ s.smpl < sample := by omega
      simp only [motionK, motionKmag]
      rw [if_neg h0, if_neg h1, if_neg h3']
      split_ifs with h4 <;> simp

/-- Witness for C5: a skip tick of motionLP right after warm-up. -/
theorem C5_decimation_skip_window_witness :
    (4 : ℕ) ≤ 255 ∧
    (⟨32, 0, 0, 0, 0, 0, 0, 0⟩ : MotionLPState).setup = CNTSETUP ∧
    (((⟨32, 0, 0, 0, 0, 0, 0, 0⟩ : MotionLPState).smpl < 4 →
      (motionLP ⟨32, 0, 0, 0, 0, 0, 0, 0⟩ 1 2 3 (1/2) (1/10) 4).2 = 0 ∧
      (motionLP ⟨32, 0, 0, 0, 0, 0, 0, 0⟩ 1 2 3 (1/2) (1/10) 4).1.smpl =
        (⟨32, 0, 0, 0, 0, 0, 0, 0⟩ : MotionLPState).smpl + 1 ∧
      (motionLP ⟨32, 0, 0, 0, 0, 0, 0, 0⟩ 1 2 3 (1/2) (1/10) 4).1.pX =
        (⟨32, 0, 0, 0, 0, 0, 0, 0⟩ : MotionLPState).pX ∧
      (motionLP ⟨32, 0, 0, 0, 0, 0, 0, 0⟩ 1 2 3 (1/2) (1/10) 4).1.pY =
        (⟨32, 0, 0, 0, 0, 0, 0, 0⟩ : MotionLPState).pY ∧
      (motionLP ⟨32, 0, 0, 0, 0, 0, 0, 0⟩ 1 2 3 (1/2) (1/10) 4).1.pZ =
        (⟨32, 0, 0, 0, 0, 0, 0, 0⟩ : MotionLPState).pZ) ∧
    (4 ≤ (⟨32, 0, 0, 0, 0, 0, 0, 0⟩ : MotionLPState).smpl →
      (motionLP ⟨32, 0, 0, 0, 0, 0, 0, 0⟩ 1 2 3 (1/2) (1/10) 4).2 =
        if (1:ℝ)/10 < motionLPmag ⟨32, 0, 0, 0, 0, 0, 0, 0⟩ 1 2 3 (1/2)
        then motionLPmag ⟨32, 0, 0, 0, 0, 0, 0, 0⟩ 1 2 3 (1/2) else 0)) :=
  ⟨by norm_num, rfl,
    C5_decimation_skip_window.1 ⟨32, 0, 0, 0, 0, 0, 0, 0⟩ 1 2 3 (1/2) (1/10) 4
      (by norm_num) rfl⟩

/-- Claim C6: whenever a trigger detector fires (returns a positive
magnitude) it resets its warm-up counter to 0 in the same call, and any
call made from a state whose warm-up counter is 0 returns 0; hence a
spike fires once and the immediately following identical sample cannot
re-fire.  Stated for motionLP and distortionLP, the two functions the
claim cites. -/
theorem C6_fire_resets_baseline :
    (∀ (s : MotionLPState) (x y z alpha delta : ℝ) (sample : ℕ),
      0 < (motionLP s x y z alpha delta sample).2 →
      (motionLP s x y z alpha delta sample).1.setup = 0) ∧
    (∀ (s : MotionLPState) (x y z alpha delta : ℝ) (sample : ℕ),
      s.setup = 0 → (motionLP s x y z alpha delta sample).2 = 0) ∧
    (∀ (s : DistortionLPState) (x y z alpha delta : ℝ),
      0 < (distortionLP s x y z alpha delta).2 →
      (distortionLP s x y z alpha delta).1.setup = 0) ∧
    (∀ (s : DistortionLPState) (x y z alpha delta : ℝ),
      s.setup = 0 → (distortionLP s x y z alpha delta).2 = 0) := by
  refine ⟨?_, ?_, ?_, ?_⟩
  · intro s x y z alpha delta sample
    simp only [motionLP]
    split_ifs <;> simp
  · intro s x y z alpha delta sample h0
    simp [motionLP, h0]
  · intro s x y z alpha delta
    simp only [distortionLP]
    split_ifs <;> simp
  · intro s x y z alpha delta h0
    simp [distortionLP, h0]

/-- Witness for C6: a concrete firing call of motionLP (trigger 2 > 0)
whose post state has warm-up counter 0, so the next call returns 0. -/
theorem C6_fire_resets_baseline_witness :
    0 < (motionLP ⟨32, 0, 0, 0, 0, 2, 0, 0⟩ 2 0 0 (1/2) 1 0).2 ∧
    (motionLP ⟨32, 0, 0, 0, 0, 2, 0, 0⟩ 2 0 0 (1/2) 1 0).1.setup = 0 := by
  have e3 : vnorm (2:ℝ) 0 0 = 2 := by
    rw [vnorm]
    exact sqrt_xx0 2 (by norm_num)
  have hval : (motionLP ⟨32, 0, 0, 0, 0, 2, 0, 0⟩ 2 0 0 (1/2) 1 0).2 = 2 := by
    norm_num [motionLP, CNTSETUP, lp1, e3]
  refine ⟨by rw [hval]; norm_num,
    C6_fire_resets_baseline.1 ⟨32, 0, 0, 0, 0, 2, 0, 0⟩ 2 0 0 (1/2) 1 0
      (by rw [hval]; norm_num)⟩

theorem atan2_deg_bounds_of_nonneg (y x : ℝ) (hx : 0 ≤ x) :
    -90 ≤ atan2 y x * RAD2DEG ∧ atan2 y x * RAD2DEG ≤ 90 := by
  have harg : |Complex.arg ⟨x, y⟩| ≤ Real.pi / 2 :=
    Complex.abs_arg_le_pi_div_two_iff.mpr hx
  have hRAD : 0 < RAD2DEG := by
    rw [RAD2DEG]
    positivity
  have h90 : Real.pi / 2 * RAD2DEG = 90 := by
    rw [RAD2DEG]
    field_simp
    ring
  have habs : |atan2 y x * RAD2DEG| ≤ 90 := by
    rw [abs_mul, abs_of_pos hRAD]
    calc |atan2 y x| * RAD2DEG ≤ Real.pi / 2 * RAD2DEG := by
          simp only [atan2]
          exact mul_le_mul_of_nonneg_right harg hRAD.le
      _ = 90 := h90
  exact abs_le.mp habs

theorem atan2_deg_bounds (y x : ℝ) :
    -180 < atan2 y x * RAD2DEG ∧ atan2 y x * RAD2DEG ≤ 180 := by
  have hRAD : 0 < RAD2DEG := by
    rw [RAD2DEG]
    positivity
  have h180 : Real.pi * RAD2DEG = 180 := by
    rw [RAD2DEG]
    field_simp
  constructor
  · have harg := Complex.neg_pi_lt_arg (⟨x, y⟩ : ℂ)
    have h2 : -Real.pi * RAD2DEG < atan2 y x * RAD2DEG := by
      simp only [atan2]
      exact mul_lt_mul_of_pos_right harg hRAD
    calc (-180 : ℝ) = -Real.pi * RAD2DEG := by rw [neg_mul, h180]
      _ < atan2 y x * RAD2DEG := h2
  · have harg := Complex.arg_le_pi (⟨x, y⟩ : ℂ)
    have h2 : atan2 y x * RAD2DEG ≤ Real.pi * RAD2DEG := by
      simp only [atan2]
      exact mul_le_mul_of_nonneg_right harg hRAD.le
    rw [h180] at h2
    exact h2

/-- Claim C7: after warm-up, every call to orientLP and orientK returns
0 (ready) and computes, on the filtered vectors: pitch =
atan2(ax, sqrt(ay² + az²)) in degrees, roll = atan2(ay, sqrt(ax² + az²))
in degrees, then normalizes both vectors and sets yaw = atan2(My, Mx)
in degrees with Mx = mx·az − mz·ax and My = my·az − mz·ay computed on
the normalized components; consequently pitch and roll lie in
[-90, 90] and yaw in (-180, 180]. -/
theorem C7_orientation_ready_formulas :
    (∀ (s : OrientLPState) (ax ay az mx my mz alpha : ℝ),
      s.setup = CNTSETUP →
      (orientLP s ax ay az mx my mz alpha).2 =
        (0, some
          (atan2 (lp1 alpha s.aX ax)
            (Real.sqrt (lp1 alpha s.aY ay * lp1 alpha s.aY ay +
              lp1 alpha s.aZ az * lp1 alpha s.aZ az)) * RAD2DEG,
           atan2 (lp1 alpha s.aY ay)
            (Real.sqrt (lp1 alpha s.aX ax * lp1 alpha s.aX ax +
              lp1 alpha s.aZ az * lp1 alpha s.aZ az)) * RAD2DEG,
           atan2
            (lp1 alpha s.mY my /
                vnorm (lp1 alpha s.mX mx) (lp1 alpha s.mY my) (lp1 alpha s.mZ mz) *
              (lp1 alpha s.aZ az /
                vnorm (lp1 alpha s.aX ax) (lp1 alpha s.aY ay) (lp1 alpha s.aZ az)) -
             lp1 alpha s.mZ mz /
                vnorm (lp1 alpha s.mX mx) (lp1 alpha s.mY my) (lp1 alpha s.mZ mz) *
              (lp1 alpha s.aY ay /
                vnorm (lp1 alpha s.aX ax) (lp1 alpha s.aY ay) (lp1 alpha s.aZ az)))
            (lp1 alpha s.mX mx /
                vnorm (lp1 alpha s.mX mx) (lp1 alpha s.mY my) (lp1 alpha s.mZ mz) *
              (lp1 alpha s.aZ az /
                vnorm (lp1 alpha s.aX ax) (lp1 alpha s.aY ay) (lp1 alpha s.aZ az)) -
             lp1 alpha s.mZ mz /
                vnorm (lp1 alpha s.mX mx) (lp1 alpha s.mY my) (lp1 alpha s.mZ mz) *
              (lp1 alpha s.aX ax /
                vnorm (lp1 alpha s.aX ax) (lp1 alpha s.aY ay) (lp1 alpha s.aZ az))) *
            RAD2DEG)) ∧
      (∀ p r yw : ℝ,
        (orientLP s ax ay az mx my mz alpha).2.2 = some (p, r, yw) →
        (-90 ≤ p ∧ p ≤ 90) ∧ (-90 ≤ r ∧ r ≤ 90) ∧
          (-180 < yw ∧ yw ≤ 180))) ∧
    (∀ (s : OrientKState) (ax ay az mx my mz Q R E : ℝ),
      s.setup = CNTSETUP →
      (orientK s ax ay az mx my mz Q R E).2 =
        (0, some
          (atan2 (kalman1 s.fAx s.eAx ax Q R).1
            (Real.sqrt ((kalman1 s.fAy s.eAy ay Q R).1 * (kalman1 s.fAy s.eAy ay Q R).1 +
              (kalman1 s.fAz s.eAz az Q R).1 * (kalman1 s.fAz s.eAz az Q R).1)) * RAD2DEG,
           atan2 (kalman1 s.fAy s.eAy ay Q R).1
            (Real.sqrt ((kalman1 s.fAx s.eAx ax Q R).1 * (kalman1 s.fAx s.eAx ax Q R).1 +
              (kalman1 s.fAz s.eAz az Q R).1 * (kalman1 s.fAz s.eAz az Q R).1)) * RAD2DEG,
           atan2
            ((kalman1 s.fMy s.eMy my Q R).1 /
                vnorm (kalman1 s.fMx s.eMx mx Q R).1 (kalman1 s.fMy s.eMy my Q R).1
                  (kalman1 s.fMz s.eMz mz Q R).1 *
              ((kalman1 s.fAz s.eAz az Q R).1 /
                vnorm (kalman1 s.fAx s.eAx ax Q R).1 (kalman1 s.fAy s.eAy ay Q R).1
                  (kalman1 s.fAz s.eAz az Q R).1) -
             (kalman1 s.fMz s.eMz mz Q R).1 /
                vnorm (kalman1 s.fMx s.eMx mx Q R).1 (kalman1 s.fMy s.eMy my Q R).1
                  (kalman1 s.fMz s.eMz mz Q R).1 *
              ((kalman1 s.fAy s.eAy ay Q R).1 /
                vnorm (kalman1 s.fAx s.eAx ax Q R).1 (kalman1 s.fAy s.eAy ay Q R).1
                  (kalman1 s.fAz s.eAz az Q R).1))
            ((kalman1 s.fMx s.eMx mx Q R).1 /
                vnorm (kalman1 s.fMx s.eMx mx Q R).1 (kalman1 s.fMy s.eMy my Q R).1
                  (kalman1 s.fMz s.eMz mz Q R).1 *
              ((kalman1 s.fAz s.eAz az Q R).1 /
                vnorm (kalman1 s.fAx s.eAx ax Q R).1 (kalman1 s.fAy s.eAy ay Q R).1
                  (kalman1 s.fAz s.eAz az Q R).1) -
             (kalman1 s.fMz s.eMz mz Q R).1 /
                vnorm (kalman1 s.fMx s.eMx mx Q R).1 (kalman1 s.fMy s.eMy my Q R).1
                  (kalman1 s.fMz s.eMz mz Q R).1 *
              ((kalman1 s.fAx s.eAx ax Q R).1 /
                vnorm (kalman1 s.fAx s.eAx ax Q R).1 (kalman1 s.fAy s.eAy ay Q R).1
                  (kalman1 s.fAz s.eAz az Q R).1)) * RAD2DEG)) ∧
      (∀ p r yw : ℝ,
        (orientK s ax ay az mx my mz Q R E).2.2 = some (p, r, yw) →
        (-90 ≤ p ∧ p ≤ 90) ∧ (-90 ≤ r ∧ r ≤ 90) ∧
          (-180 < yw ∧ yw ≤ 180))) := by
  constructor
  · intro s ax ay az mx my mz alpha h
    have h0 : ¬ s.setup = 0 := by simp [h, CNTSETUP]
    have h1 : ¬ s.setup < CNTSETUP := by simp [h]
    constructor
    · simp only [orientLP]
      rw [if_neg h0, if_neg h1]
    · intro p r yw heq
      simp only [orientLP] at heq
      rw [if_neg h0, if_neg h1] at heq
      simp only [Option.some.injEq, Prod.mk.injEq] at heq
      obtain ⟨hp, hr, hy⟩ := heq
      subst hp
      subst hr
      subst hy
      exact ⟨atan2_deg_bounds_of_nonneg _ _ (Real.sqrt_nonneg _),
        atan2_deg_bounds_of_nonneg _ _ (Real.sqrt_nonneg _),
        atan2_deg_bounds _ _⟩
  · intro s ax ay az mx my mz Q R E h
    have h0 : ¬ s.setup = 0 := by simp [h, CNTSETUP]
    have h1 : ¬ s.setup < CNTSETUP := by simp [h]
    constructor
    · simp only [orientK]
      rw [if_neg h0, if_neg h1]
    · intro p r yw heq
      simp only [orientK] at heq
      rw [if_neg h0, if_neg h1] at heq
      simp only [Option.some.injEq, Prod.mk.injEq] at heq
      obtain ⟨hp, hr, hy⟩ := heq
      subst hp
      subst hr
      subst hy
      exact ⟨atan2_deg_bounds_of_nonneg _ _ (Real.sqrt_nonneg _),
        atan2_deg_bounds_of_nonneg _ _ (Real.sqrt_nonneg _),
        atan2_deg_bounds _ _⟩

/-- Witness for C7: a ready call of orientLP with the filter state
holding accelerometer (0,0,1) and magnetometer (1,0,0). -/
theorem C7_orientation_ready_formulas_witness :
    (⟨32, 0, 0, 1, 1, 0, 0⟩ : OrientLPState).setup = CNTSETUP ∧
    (orientLP ⟨32, 0, 0, 1, 1, 0, 0⟩ 0 0 1 1 0 0 (1/2)).2 =
      (0, some
        (atan2 (lp1 (1/2) 0 0)
          (Real.sqrt (lp1 (1/2) 0 0 * lp1 (1/2) 0 0 +
            lp1 (1/2) 1 1 * lp1 (1/2) 1 1)) * RAD2DEG,
         atan2 (lp1 (1/2) 0 0)
          (Real.sqrt (lp1 (1/2) 0 0 * lp1 (1/2) 0 0 +
            lp1 (1/2) 1 1 * lp1 (1/2) 1 1)) * RAD2DEG,
         atan2
          (lp1 (1/2) 0 0 / vnorm (lp1 (1/2) 1 1) (lp1 (1/2) 0 0) (lp1 (1/2) 0 0) *
            (lp1 (1/2) 1 1 / vnorm (lp1 (1/2) 0 0) (lp1 (1/2) 0 0) (lp1 (1/2) 1 1)) -
           lp1 (1/2) 0 0 / vnorm (lp1 (1/2) 1 1) (lp1 (1/2) 0 0) (lp1 (1/2) 0 0) *
            (lp1 (1/2) 0 0 / vnorm (lp1 (1/2) 0 0) (lp1 (1/2) 0 0) (lp1 (1/2) 1 1)))
          (lp1 (1/2) 1 1 / vnorm (lp1 (1/2) 1 1) (lp1 (1/2) 0 0) (lp1 (1/2) 0 0) *
            (lp1 (1/2) 1 1 / vnorm (lp1 (1/2) 0 0) (lp1 (1/2) 0 0) (lp1 (1/2) 1 1)) -
           lp1 (1/2) 0 0 / vnorm (lp1 (1/2) 1 1) (lp1 (1/2) 0 0) (lp1 (1/2) 0 0) *
            (lp1 (1/2) 0 0 / vnorm (lp1 (1/2) 0 0) (lp1 (1/2) 0 0) (lp1 (1/2) 1 1))) *
          RAD2DEG)) :=
  ⟨rfl,
    (C7_orientation_ready_formulas.1 ⟨32, 0, 0, 1, 1, 0, 0⟩ 0 0 1 1 0 0 (1/2)
      rfl).1⟩

/-- Claim C9: on a check tick, motionK fires (returns the distance and
resets its warm-up counter to 0) exactly when the magnitude m satisfies
both m > delta and m < 1; for any distance of 1 or greater the call
returns 0 and the warm-up counter stays saturated at CNTSETUP. -/
theorem C9_motionK_outlier_ceiling
    (s : MotionKState) (x y z Q R E delta : ℝ) (sample : ℕ)
    (hsetup : s.setup = CNTSETUP) (htick : sample ≤ s.smpl) :
    (1 ≤ motionKmag s x y z Q R →
      (motionK s x y z Q R E delta sample).2 = 0 ∧
      (motionK s x y z Q R E delta sample).1.setup = CNTSETUP) ∧
    (delta < motionKmag s x y z Q R ∧ motionKmag s x y z Q R < 1 →
      (motionK s x y z Q R E delta sample).2 = motionKmag s x y z Q R ∧
      (motionK s x y z Q R E delta sample).1.setup = 0) ∧
    ((motionK s x y z Q R E delta sample).2 ≠ 0 →
      delta < motionKmag s x y z Q R ∧ motionKmag s x y z Q R < 1) := by
  have h0 : ¬ s.setup = 0 := by simp [hsetup, CNTSETUP]
  have h1 : ¬ s.setup < CNTSETUP := by simp [hsetup]
  have h3 : ¬ s.smpl < sample := by omega
  simp only [motionK, motionKmag]
  rw [if_neg h0, if_neg h1, if_neg h3]
  refine ⟨?_, ?_, ?_⟩
  · intro hge
    have hnot : ¬ (delta < vnorm |(kalman1 s.fX s.eX x Q R).1 - s.pX|
        |(kalman1 s.fY s.eY y Q R).1 - s.pY|
        |(kalman1 s.fZ s.eZ z Q R).1 - s.pZ| ∧
        vnorm |(kalman1 s.fX s.eX x Q R).1 - s.pX|
        |(kalman1 s.fY s.eY y Q R).1 - s.pY|
        |(kalman1 s.fZ s.eZ z Q R).1 - s.pZ| < 1) :=
      fun hc => absurd hc.2 (not_lt.mpr hge)
    rw [if_neg hnot]
    simp [hsetup]
  · intro hc
    rw [if_pos hc]
    simp
  · intro hne
    by_cases hc : delta < vnorm |(kalman1 s.fX s.eX x Q R).1 - s.pX|
        |(kalman1 s.fY s.eY y Q R).1 - s.pY|
        |(kalman1 s.fZ s.eZ z Q R).1 - s.pZ| ∧
        vnorm |(kalman1 s.fX s.eX x Q R).1 - s.pX|
        |(kalman1 s.fY s.eY y Q R).1 - s.pY|
        |(kalman1 s.fZ s.eZ z Q R).1 - s.pZ| < 1
    · exact hc
    · rw [if_neg hc] at hne
      simp at hne

/-- Witness for C9: a check tick of motionK whose computed distance is
2 (at least the sanity ceiling 1), so the call returns 0 and stays
saturated. -/
theorem C9_motionK_outlier_ceiling_witness :
    (⟨32, 0, 0, 0, 0, 1, 1, 1, 0, 0, 0⟩ : MotionKState).setup = CNTSETUP ∧
    (0 : ℕ) ≤ (⟨32, 0, 0, 0, 0, 1, 1, 1, 0, 0, 0⟩ : MotionKState).smpl ∧
    1 ≤ motionKmag ⟨32, 0, 0, 0, 0, 1, 1, 1, 0, 0, 0⟩ 4 0 0 0 1 ∧
    ((motionK ⟨32, 0, 0, 0, 0, 1, 1, 1, 0, 0, 0⟩ 4 0 0 0 1 1 (1/10) 0).2 = 0 ∧
     (motionK ⟨32, 0, 0, 0, 0, 1, 1, 1, 0, 0, 0⟩
        4 0 0 0 1 1 (1/10) 0).1.setup = CNTSETUP) := by
  have e3 : vnorm (2:ℝ) 0 0 = 2 := by
    rw [vnorm]
    exact sqrt_xx0 2 (by norm_num)
  have hmag : motionKmag ⟨32, 0, 0, 0, 0, 1, 1, 1, 0, 0, 0⟩ 4 0 0 0 1 = 2 := by
    norm_num [motionKmag, kalman1, e3]
  have hge : (1:ℝ) ≤ motionKmag ⟨32, 0, 0, 0, 0, 1, 1, 1, 0, 0, 0⟩ 4 0 0 0 1 := by
    rw [hmag]
    norm_num
  exact ⟨rfl, le_refl 0,
    hge,
    (C9_motionK_outlier_ceiling ⟨32, 0, 0, 0, 0, 1, 1, 1, 0, 0, 0⟩
      4 0 0 0 1 1 (1/10) 0 rfl (le_refl 0)).1 hge⟩

theorem vnorm_div_self (x y z : ℝ) (h : vnorm x y z ≠ 0) :
    vnorm (x / vnorm x y z) (y / vnorm x y z) (z / vnorm x y z) = 1 := by
  have hS : 0 ≤ x * x + y * y + z * z := by
    have hx := mul_self_nonneg x
    have hy := mul_self_nonneg y
    have hz := mul_self_nonneg z
    linarith
  have hSne : x * x + y * y + z * z ≠ 0 := by
    intro h0
    apply h
    rw [vnorm, h0, Real.sqrt_zero]
  have hmul : vnorm x y z * vnorm x y z = x * x + y * y + z * z := by
    rw [vnorm]
    exact Real.mul_self_sqrt hS
  conv_lhs => rw [vnorm]
  rw [show x / vnorm x y z * (x / vnorm x y z) +
      y / vnorm x y z * (y / vnorm x y z) +
      z / vnorm x y z * (z / vnorm x y z) =
      (x * x + y * y + z * z) / (vnorm x y z * vnorm x y z) by ring]
  rw [hmul, div_self hSne, Real.sqrt_one]

theorem orientLP_ready_state (s : OrientLPState)
    (ax ay az mx my mz alpha : ℝ) (h : s.setup = CNTSETUP) :
    (orientLP s ax ay az mx my mz alpha).1 =
      { setup := s.setup,
        aX := lp1 alpha s.aX ax /
          vnorm (lp1 alpha s.aX ax) (lp1 alpha s.aY ay) (lp1 alpha s.aZ az),
        aY := lp1 alpha s.aY ay /
          vnorm (lp1 alpha s.aX ax) (lp1 alpha s.aY ay) (lp1 alpha s.aZ az),
        aZ := lp1 alpha s.aZ az /
          vnorm (lp1 alpha s.aX ax) (lp1 alpha s.aY ay) (lp1 alpha s.aZ az),
        mX := lp1 alpha s.mX mx /
          vnorm (lp1 alpha s.mX mx) (lp1 alpha s.mY my) (lp1 alpha s.mZ mz),
        mY := lp1 alpha s.mY my /
          vnorm (lp1 alpha s.mX mx) (lp1 alpha s.mY my) (lp1 alpha s.mZ mz),
        mZ := lp1 alpha s.mZ mz /
          vnorm (lp1 alpha s.mX mx) (lp1 alpha s.mY my) (lp1 alpha s.mZ mz) } := by
  have h0 : ¬ s.setup = 0 := by simp [h, CNTSETUP]
  have h1 : ¬ s.setup < CNTSETUP := by simp [h]
  simp only [orientLP]
  rw [if_neg h0, if_neg h1]

theorem orientK_ready_state (s : OrientKState)
    (ax ay az mx my mz Q R E : ℝ) (h : s.setup = CNTSETUP) :
    (orientK s ax ay az mx my mz Q R E).1 =
      { setup := s.setup,
        fAx := (kalman1 s.fAx s.eAx ax Q R).1 /
          vnorm (kalman1 s.fAx s.eAx ax Q R).1 (kalman1 s.fAy s.eAy ay Q R).1
            (kalman1 s.fAz s.eAz az Q R).1,
        fAy := (kalman1 s.fAy s.eAy ay Q R).1 /
          vnorm (kalman1 s.fAx s.eAx ax Q R).1 (kalman1 s.fAy s.eAy ay Q R).1
            (kalman1 s.fAz s.eAz az Q R).1,
        fAz := (kalman1 s.fAz s.eAz az Q R).1 /
          vnorm (kalman1 s.fAx s.eAx ax Q R).1 (kalman1 s.fAy s.eAy ay Q R).1
            (kalman1 s.fAz s.eAz az Q R).1,
        fMx := (kalman1 s.fMx s.eMx mx Q R).1 /
          vnorm (kalman1 s.fMx s.eMx mx Q R).1 (kalman1 s.fMy s.eMy my Q R).1
            (kalman1 s.fMz s.eMz mz Q R).1,
        fMy := (kalman1 s.fMy s.eMy my Q R).1 /
          vnorm (kalman1 s.fMx s.eMx mx Q R).1 (kalman1 s.fMy s.eMy my Q R).1
            (kalman1 s.fMz s.eMz mz Q R).1,
        fMz := (kalman1 s.fMz s.eMz mz Q R).1 /
          vnorm (kalman1 s.fMx s.eMx mx Q R).1 (kalman1 s.fMy s.eMy my Q R).1
            (kalman1 s.fMz s.eMz mz Q R).1,
        eAx := (kalman1 s.fAx s.eAx ax Q R).2,
        eAy := (kalman1 s.fAy s.eAy ay Q R).2,
        eAz := (kalman1 s.fAz s.eAz az Q R).2,
        eMx := (kalman1 s.fMx s.eMx mx Q R).2,
        eMy := (kalman1 s.fMy s.eMy my Q R).2,
        eMz := (kalman1 s.fMz s.eMz mz Q R).2 } := by
  have h0 : ¬ s.setup = 0 := by simp [h, CNTSETUP]
  have h1 : ¬ s.setup < CNTSETUP := by simp [h]
  simp only [orientK]
  rw [if_neg h0, if_neg h1]

/-- Claim C10: in every ready call of orientLP or orientK the
normalization divides the persisted filtered vectors in place, so the
stored filter state after the call holds the normalized vectors (of
unit norm whenever the filtered norm is nonzero), and the next call
computes its filter update from that normalized stored state. -/
theorem C10_normalization_in_place :
    (∀ (s : OrientLPState) (ax ay az mx my mz alpha : ℝ),
      s.setup = CNTSETUP →
      (orientLP s ax ay az mx my mz alpha).1 =
        { setup := s.setup,
          aX := lp1 alpha s.aX ax /
            vnorm (lp1 alpha s.aX ax) (lp1 alpha s.aY ay) (lp1 alpha s.aZ az),
          aY := lp1 alpha s.aY ay /
            vnorm (lp1 alpha s.aX ax) (lp1 alpha s.aY ay) (lp1 alpha s.aZ az),
          aZ := lp1 alpha s.aZ az /
            vnorm (lp1 alpha s.aX ax) (lp1 alpha s.aY ay) (lp1 alpha s.aZ az),
          mX := lp1 alpha s.mX mx /
            vnorm (lp1 alpha s.mX mx) (lp1 alpha s.mY my) (lp1 alpha s.mZ mz),
          mY := lp1 alpha s.mY my /
            vnorm (lp1 alpha s.mX mx) (lp1 alpha s.mY my) (lp1 alpha s.mZ mz),
          mZ := lp1 alpha s.mZ mz /
            vnorm (lp1 alpha s.mX mx) (lp1 alpha s.mY my) (lp1 alpha s.mZ mz) } ∧
      (vnorm (lp1 alpha s.aX ax) (lp1 alpha s.aY ay) (lp1 alpha s.aZ az) ≠ 0 →
        vnorm (orientLP s ax ay az mx my mz alpha).1.aX
          (orientLP s ax ay az mx my mz alpha).1.aY
          (orientLP s ax ay az mx my mz alpha).1.aZ = 1) ∧
      (vnorm (lp1 alpha s.mX mx) (lp1 alpha s.mY my) (lp1 alpha s.mZ mz) ≠ 0 →
        vnorm (orientLP s ax ay az mx my mz alpha).1.mX
          (orientLP s ax ay az mx my mz alpha).1.mY
          (orientLP s ax ay az mx my mz alpha).1.mZ = 1) ∧
      (∀ ax2 ay2 az2 mx2 my2 mz2 : ℝ,
        (orientLP (orientLP s ax ay az mx my mz alpha).1
            ax2 ay2 az2 mx2 my2 mz2 alpha).1.aX =
          lp1 alpha (orientLP s ax ay az mx my mz alpha).1.aX ax2 /
            vnorm (lp1 alpha (orientLP s ax ay az mx my mz alpha).1.aX ax2)
              (lp1 alpha (orientLP s ax ay az mx my mz alpha).1.aY ay2)
              (lp1 alpha (orientLP s ax ay az mx my mz alpha).1.aZ az2))) ∧
    (∀ (s : OrientKState) (ax ay az mx my mz Q R E : ℝ),
      s.setup = CNTSETUP →
      ((orientK s ax ay az mx my mz Q R E).1.fAx =
        (kalman1 s.fAx s.eAx ax Q R).1 /
          vnorm (kalman1 s.fAx s.eAx ax Q R).1 (kalman1 s.fAy s.eAy ay Q R).1
            (kalman1 s.fAz s.eAz az Q R).1 ∧
       (orientK s ax ay az mx my mz Q R E).1.fAy =
        (kalman1 s.fAy s.eAy ay Q R).1 /
          vnorm (kalman1 s.fAx s.eAx ax Q R).1 (kalman1 s.fAy s.eAy ay Q R).1
            (kalman1 s.fAz s.eAz az Q R).1 ∧
       (orientK s ax ay az mx my mz Q R E).1.fAz =
        (kalman1 s.fAz s.eAz az Q R).1 /
          vnorm (kalman1 s.fAx s.eAx ax Q R).1 (kalman1 s.fAy s.eAy ay Q R).1
            (kalman1 s.fAz s.eAz az Q R).1 ∧
       (orientK s ax ay az mx my mz Q R E).1.fMx =
        (kalman1 s.fMx s.eMx mx Q R).1 /
          vnorm (kalman1 s.fMx s.eMx mx Q R).1 (kalman1 s.fMy s.eMy my Q R).1
            (kalman1 s.fMz s.eMz mz Q R).1 ∧
       (orientK s ax ay az mx my mz Q R E).1.fMy =
        (kalman1 s.fMy s.eMy my Q R).1 /
          vnorm (kalman1 s.fMx s.eMx mx Q R).1 (kalman1 s.fMy s.eMy my Q R).1
            (kalman1 s.fMz s.eMz mz Q R).1 ∧
       (orientK s ax ay az mx my mz Q R E).1.fMz =
        (kalman1 s.fMz s.eMz mz Q R).1 /
          vnorm (kalman1 s.fMx s.eMx mx Q R).1 (kalman1 s.fMy s.eMy my Q R).1
            (kalman1 s.fMz s.eMz mz Q R).1) ∧
      (vnorm (kalman1 s.fAx s.eAx ax Q R).1 (kalman1 s.fAy s.eAy ay Q R).1
          (kalman1 s.fAz s.eAz az Q R).1 ≠ 0 →
        vnorm (orientK s ax ay az mx my mz Q R E).1.fAx
          (orientK s ax ay az mx my mz Q R E).1.fAy
          (orientK s ax ay az mx my mz Q R E).1.fAz = 1) ∧
      (vnorm (kalman1 s.fMx s.eMx mx Q R).1 (kalman1 s.fMy s.eMy my Q R).1
          (kalman1 s.fMz s.eMz mz Q R).1 ≠ 0 →
        vnorm (orientK s ax ay az mx my mz Q R E).1.fMx
          (orientK s ax ay az mx my mz Q R E).1.fMy
          (orientK s ax ay az mx my mz Q R E).1.fMz = 1) ∧
      (∀ ax2 ay2 az2 mx2 my2 mz2 : ℝ,
        (orientK (orientK s ax ay az mx my mz Q R E).1
            ax2 ay2 az2 mx2 my2 mz2 Q R E).1.fAx =
          (kalman1 (orientK s ax ay az mx my mz Q R E).1.fAx
              (orientK s ax ay az mx my mz Q R E).1.eAx ax2 Q R).1 /
            vnorm
              (kalman1 (orientK s ax ay az mx my mz Q R E).1.fAx
                (orientK s ax ay az mx my mz Q R E).1.eAx ax2 Q R).1
              (kalman1 (orientK s ax ay az mx my mz Q R E).1.fAy
                (orientK s ax ay az mx my mz Q R E).1.eAy ay2 Q R).1
              (kalman1 (orientK s ax ay az mx my mz Q R E).1.fAz
                (orientK s ax ay az mx my mz Q R E).1.eAz az2 Q R).1)) := by
  constructor
  · intro s ax ay az mx my mz alpha h
    have hst := orientLP_ready_state s ax ay az mx my mz alpha h
    refine ⟨hst, ?_, ?_, ?_⟩
    · intro hn
      rw [hst]
      exact vnorm_div_self _ _ _ hn
    · intro hn
      rw [hst]
      exact vnorm_div_self _ _ _ hn
    · intro ax2 ay2 az2 mx2 my2 mz2
      have h2 : (orientLP s ax ay az mx my mz alpha).1.setup = CNTSETUP := by
        rw [hst, h]
      have hst2 := orientLP_ready_state (orientLP s ax ay az mx my mz alpha).1
        ax2 ay2 az2 mx2 my2 mz2 alpha h2
      rw [hst2]
  · intro s ax ay az mx my mz Q R E h
    have hst := orientK_ready_state s ax ay az mx my mz Q R E h
    refine ⟨?_, ?_, ?_, ?_⟩
    · rw [hst]
      exact ⟨rfl, rfl, rfl, rfl, rfl, rfl⟩
    · intro hn
      rw [hst]
      exact vnorm_div_self _ _ _ hn
    · intro hn
      rw [hst]
      exact vnorm_div_self _ _ _ hn
    · intro ax2 ay2 az2 mx2 my2 mz2
      have h2 : (orientK s ax ay az mx my mz Q R E).1.setup = CNTSETUP := by
        rw [hst, h]
      have hst2 := orientK_ready_state (orientK s ax ay az mx my mz Q R E).1
        ax2 ay2 az2 mx2 my2 mz2 Q R E h2
      rw [hst2]

/-- Witness for C10: a ready orientLP call from the state holding
accelerometer (0,0,1) and magnetometer (1,0,0); the filtered
accelerometer norm is nonzero, so the stored vector after the call has
unit norm. -/
theorem C10_normalization_in_place_witness :
    (⟨32, 0, 0, 1, 1, 0, 0⟩ : OrientLPState).setup = CNTSETUP ∧
    vnorm (lp1 (1/2) 0 0) (lp1 (1/2) 0 0) (lp1 (1/2) 1 1) ≠ 0 ∧
    vnorm (orientLP ⟨32, 0, 0, 1, 1, 0, 0⟩ 0 0 1 1 0 0 (1/2)).1.aX
      (orientLP ⟨32, 0, 0, 1, 1, 0, 0⟩ 0 0 1 1 0 0 (1/2)).1.aY
      (orientLP ⟨32, 0, 0, 1, 1, 0, 0⟩ 0 0 1 1 0 0 (1/2)).1.aZ = 1 := by
  have hn : vnorm (lp1 ((1:ℝ)/2) 0 0) (lp1 (1/2) 0 0) (lp1 (1/2) 1 1) ≠ 0 := by
    have e1 : lp1 ((1:ℝ)/2) 0 0 = 0 := by norm_num [lp1]
    have e2 : lp1 ((1:ℝ)/2) 1 1 = 1 := by norm_num [lp1]
    rw [e1, e2, vnorm]
    norm_num
  exact ⟨rfl, hn,
    ((C10_normalization_in_place.1 ⟨32, 0, 0, 1, 1, 0, 0⟩ 0 0 1 1 0 0 (1/2)
      rfl).2.1) hn⟩

/-- One orientLP call with both input vectors (0,0,0) and alpha 1/2:
the input stream that keeps the filtered vectors at zero norm. -/
def zeroOrientStep (s : OrientLPState) : OrientLPState :=
  (orientLP s 0 0 0 0 0 0 (1/2)).1

theorem zeroOrient_warm : ∀ k, k ≤ CNTSETUP →
    zeroOrientStep^[k] orientLPinit = ⟨k, 0, 0, 0, 0, 0, 0⟩ := by
  intro k
  induction k with
  | zero => intro _; rfl
  | succ n ih =>
    intro h
    have hn : n ≤ CNTSETUP := Nat.le_of_succ_le h
    rw [Function.iterate_succ_apply', ih hn]
    rcases Nat.eq_zero_or_pos n with h0 | h0
    · subst h0
      simp [zeroOrientStep, orientLP]
    · have h0' : ¬ n = 0 := by omega
      have h1 : n < CNTSETUP := by
        simp only [CNTSETUP] at h ⊢
        omega
      simp [zeroOrientStep, orientLP, h0', h1, lp1]

/-- Claim C1 (refuting evidence): after 32 calls of orientLP with the
all-zero input stream the persisted filtered vectors have norm exactly
0, and the 33rd call still takes the ready path: it returns 0 with
angles computed, performing the in-place division of the filtered
accelerometer vector by the zero norm (0.0F/0.0F, NaN in the C float
semantics) instead of treating the zero-length vector as no reading.
No guard exists on the normalization divisions of orientLP, orientK or
on the acos argument of inclineLP. -/
theorem C1_zero_norm_division_unguarded :
    (zeroOrientStep^[CNTSETUP] orientLPinit).setup = CNTSETUP ∧
    vnorm (zeroOrientStep^[CNTSETUP] orientLPinit).aX
      (zeroOrientStep^[CNTSETUP] orientLPinit).aY
      (zeroOrientStep^[CNTSETUP] orientLPinit).aZ = 0 ∧
    vnorm (lp1 (1/2) (zeroOrientStep^[CNTSETUP] orientLPinit).aX 0)
      (lp1 (1/2) (zeroOrientStep^[CNTSETUP] orientLPinit).aY 0)
      (lp1 (1/2) (zeroOrientStep^[CNTSETUP] orientLPinit).aZ 0) = 0 ∧
    (orientLP (zeroOrientStep^[CNTSETUP] orientLPinit)
      0 0 0 0 0 0 (1/2)).2.1 = 0 ∧
    (orientLP (zeroOrientStep^[CNTSETUP] orientLPinit)
      0 0 0 0 0 0 (1/2)).2.2 ≠ none := by
  have hrun := zeroOrient_warm CNTSETUP (le_refl _)
  have hz : vnorm (0:ℝ) 0 0 = 0 := by
    rw [vnorm]
    norm_num
  rw [hrun]
  refine ⟨rfl, ?_, ?_, ?_, ?_⟩
  · exact hz
  · have hlp : lp1 ((1:ℝ)/2) 0 0 = 0 := by norm_num [lp1]
    simp only [hlp]
    exact hz
  · have h0 : ¬ (⟨CNTSETUP, 0, 0, 0, 0, 0, 0⟩ : OrientLPState).setup = 0 := by
      simp [CNTSETUP]
    have h1 : ¬ (⟨CNTSETUP, 0, 0, 0, 0, 0, 0⟩ : OrientLPState).setup <
        CNTSETUP := by simp
    simp only [orientLP]
    rw [if_neg h0, if_neg h1]
  · have h0 : ¬ (⟨CNTSETUP, 0, 0, 0, 0, 0, 0⟩ : OrientLPState).setup = 0 := by
      simp [CNTSETUP]
    have h1 : ¬ (⟨CNTSETUP, 0, 0, 0, 0, 0, 0⟩ : OrientLPState).setup <
        CNTSETUP := by simp
    simp only [orientLP]
    rw [if_neg h0, if_neg h1]
    simp

/-- One motionK call with input (0,0,0) and Q = 0, R = 1, E = 1,
delta = 1/10, sample = 0, keeping only the state. -/
def c8zeroStep (s : MotionKState) : MotionKState :=
  (motionK s 0 0 0 0 1 1 (1/10) 0).1

/-- The motionK state after k calls of the zero-input stream with
Q = 0, R = 1, E = 1: estimates and snapshot at 0, errors at 1/k. -/
def mkC8 (k : ℕ) : MotionKState :=
  ⟨k, 0, 0, 0, 0, 1/(k:ℝ), 1/(k:ℝ), 1/(k:ℝ), 0, 0, 0⟩

theorem c8_kalman_zero (k : ℕ) (hk : 1 ≤ k) :
    kalman1 0 (1/(k:ℝ)) 0 0 1 = (0, 1/((k:ℝ)+1)) := by
  have hkR : (0:ℝ) < (k:ℝ) := by exact_mod_cast hk
  have hk0 : (k:ℝ) ≠ 0 := ne_of_gt hkR
  have hd : (1:ℝ)/(k:ℝ) + 1 ≠ 0 := by positivity
  simp only [kalman1, Prod.mk.injEq]
  constructor
  · ring
  · field_simp
    ring

theorem c8_warm_step (k : ℕ) (h1k : 1 ≤ k) (h2 : k < 32) :
    c8zeroStep (mkC8 k) = mkC8 (k + 1) := by
  have h0 : ¬ (k = 0) := by omega
  have hk := c8_kalman_zero k h1k
  have hk1 : (kalman1 0 ((k:ℝ))⁻¹ 0 0 1).1 = 0 := by
    rw [← one_div, hk]
  have hk2 : (kalman1 0 ((k:ℝ))⁻¹ 0 0 1).2 = ((k:ℝ) + 1)⁻¹ := by
    rw [← one_div, hk, one_div]
  simp [c8zeroStep, mkC8, motionK, CNTSETUP, h0, h2]
  and_intros <;> first
    | exact hk1
    | exact hk2

theorem c8_warm_run : ∀ k, 1 ≤ k → k ≤ 32 →
    c8zeroStep^[k] motionKinit = mkC8 k := by
  intro k
  induction k with
  | zero => intro h _; exact absurd h (by omega)
  | succ n ih =>
    intro _ h
    rcases Nat.eq_zero_or_pos n with h0 | h0
    · subst h0
      simp [c8zeroStep, motionKinit, motionK, mkC8]
    · have hn2 : n ≤ 32 := by omega
      rw [Function.iterate_succ_apply', ih h0 hn2]
      exact c8_warm_step n h0 (by omega)

/-- Call 33 of the C8 scenario: after the 32 zero-input warm-up calls,
feed x = 33/2 on a check tick, which fires the detector. -/
def c8s33 : MotionKState × ℝ :=
  motionK (c8zeroStep^[32] motionKinit) (33/2) 0 0 0 1 1 (1/10) 0

theorem c8s33_eq :
    c8s33 = (⟨0, 0, 1/2, 0, 0, 1/33, 1/33, 1/33, 0, 0, 0⟩, 1/2) := by
  have hrun := c8_warm_run 32 (by omega) (le_refl _)
  have hm32 : mkC8 32 = ⟨32, 0, 0, 0, 0, 1/32, 1/32, 1/32, 0, 0, 0⟩ := by
    simp [mkC8]
  have hka : kalman1 0 ((32:ℝ))⁻¹ (33/2) 0 1 = (2⁻¹, 33⁻¹) := by
    simp only [kalman1, Prod.mk.injEq]
    norm_num
  have hkb : kalman1 0 ((32:ℝ))⁻¹ 0 0 1 = (0, 33⁻¹) := by
    simp only [kalman1, Prod.mk.injEq]
    norm_num
  have habs : |(1:ℝ)/2| = 1/2 := abs_of_pos (by norm_num)
  have hm2 : vnorm |(1:ℝ)/2| 0 0 = 1/2 := by
    rw [habs, vnorm]
    exact sqrt_xx0 (1/2) (by norm_num)
  rw [c8s33, hrun, hm32]
  simp [motionK, CNTSETUP]
  rw [hka, hkb]
  norm_num [hm2]

/-- Claim C8 counterexample: drive motionK from its initial state
through 32 warm-up calls of the zero-input stream (Q = 0, R = 1, E = 1,
delta = 1/10, sample = 0), then fire it on call 33 with x = 33/2
(returned trigger 1/2, warm-up counter reset to 0).  Call 34 — a call
after the first — does not update the axes by the Kalman recursion: the
code re-initializes the error to E = 1, while the recursion from the
stored state would give 1/34.  Additionally, a ready orientK call does
not leave the per-axis recursion result as the stored estimate: it
normalizes it in place (stored 1 versus recursion result 2). -/
theorem C8_counterexample :
    c8s33.2 = 1/2 ∧
    c8s33.1.setup = 0 ∧
    (motionK c8s33.1 0 0 0 0 1 1 (1/10) 0).1.eX = 1 ∧
    (kalman1 c8s33.1.fX c8s33.1.eX 0 0 1).2 = 1/34 ∧
    (motionK c8s33.1 0 0 0 0 1 1 (1/10) 0).1.eX ≠
      (kalman1 c8s33.1.fX c8s33.1.eX 0 0 1).2 ∧
    (orientK ⟨32, 0, 0, 2, 1, 0, 0, 1, 1, 1, 1, 1, 1⟩
      0 0 2 1 0 0 0 1 1).1.fAz = 1 ∧
    (kalman1 2 1 2 0 1).1 = 2 ∧
    ((1:ℝ) ≠ 2) := by
  have h34 : (motionK c8s33.1 0 0 0 0 1 1 (1/10) 0).1.eX = 1 := by
    rw [c8s33_eq]
    simp [motionK]
  have hrec : (kalman1 c8s33.1.fX c8s33.1.eX 0 0 1).2 = 1/34 := by
    rw [c8s33_eq]
    simp only [kalman1]
    norm_num
  have hkz : kalman1 (2:ℝ) 1 2 0 1 = (2, 1/2) := by
    simp only [kalman1, Prod.mk.injEq]
    norm_num
  have hk0 : kalman1 (0:ℝ) 1 0 0 1 = (0, 1/2) := by
    simp only [kalman1, Prod.mk.injEq]
    norm_num
  have hna : vnorm (0:ℝ) 0 2 = 2 := by
    rw [vnorm, show ((0:ℝ) * 0 + 0 * 0 + 2 * 2) = 2 ^ 2 by norm_num]
    exact Real.sqrt_sq (by norm_num)
  refine ⟨by rw [c8s33_eq], by rw [c8s33_eq], h34, hrec, ?_, ?_, ?_, ?_⟩
  · rw [h34, hrec]
    norm_num
  · simp [orientK, CNTSETUP, hkz, hk0, hna]
  · rw [hkz]
  · norm_num

/-- Claim C8 (amended): in motionK and orientK, every call made while
the stored warm-up counter is nonzero updates each of the independent
axes by the scalar Kalman recursion kalman1 (for orientK, once warm-up
is complete the ready path additionally divides the updated estimates
by the vector norm in place, keeping the error update); a call with
counter 0 — the first call, and for motionK the first call after each
firing — instead initializes estimate := measurement and error := E on
every axis and returns without a usable output event (0 for motionK,
not-ready 1 with no angles for orientK). -/
theorem C8_kalman_per_epoch :
    (∀ (s : MotionKState) (x y z Q R E delta : ℝ) (sample : ℕ),
      s.setup ≠ 0 →
      ((motionK s x y z Q R E delta sample).1.fX,
        (motionK s x y z Q R E delta sample).1.eX) =
          kalman1 s.fX s.eX x Q R ∧
      ((motionK s x y z Q R E delta sample).1.fY,
        (motionK s x y z Q R E delta sample).1.eY) =
          kalman1 s.fY s.eY y Q R ∧
      ((motionK s x y z Q R E delta sample).1.fZ,
        (motionK s x y z Q R E delta sample).1.eZ) =
          kalman1 s.fZ s.eZ z Q R) ∧
    (∀ (s : MotionKState) (x y z Q R E delta : ℝ) (sample : ℕ),
      s.setup = 0 →
      (motionK s x y z Q R E delta sample).1.fX = x ∧
      (motionK s x y z Q R E delta sample).1.fY = y ∧
      (motionK s x y z Q R E delta sample).1.fZ = z ∧
      (motionK s x y z Q R E delta sample).1.eX = E ∧
      (motionK s x y z Q R E delta sample).1.eY = E ∧
      (motionK s x y z Q R E delta sample).1.eZ = E ∧
      (motionK s x y z Q R E delta sample).2 = 0) ∧
    (∀ (s : OrientKState) (ax ay az mx my mz Q R E : ℝ),
      s.setup ≠ 0 →
      (orientK s ax ay az mx my mz Q R E).1.eAx =
        (kalman1 s.fAx s.eAx ax Q R).2 ∧
      (orientK s ax ay az mx my mz Q R E).1.eAy =
        (kalman1 s.fAy s.eAy ay Q R).2 ∧
      (orientK s ax ay az mx my mz Q R E).1.eAz =
        (kalman1 s.fAz s.eAz az Q R).2 ∧
      (orientK s ax ay az mx my mz Q R E).1.eMx =
        (kalman1 s.fMx s.eMx mx Q R).2 ∧
      (orientK s ax ay az mx my mz Q R E).1.eMy =
        (kalman1 s.fMy s.eMy my Q R).2 ∧
      (orientK s ax ay az mx my mz Q R E).1.eMz =
        (kalman1 s.fMz s.eMz mz Q R).2 ∧
      (s.setup < CNTSETUP →
        (orientK s ax ay az mx my mz Q R E).1.fAx =
          (kalman1 s.fAx s.eAx ax Q R).1 ∧
        (orientK s ax ay az mx my mz Q R E).1.fAy =
          (kalman1 s.fAy s.eAy ay Q R).1 ∧
        (orientK s ax ay az mx my mz Q R E).1.fAz =
          (kalman1 s.fAz s.eAz az Q R).1 ∧
        (orientK s ax ay az mx my mz Q R E).1.fMx =
          (kalman1 s.fMx s.eMx mx Q R).1 ∧
        (orientK s ax ay az mx my mz Q R E).1.fMy =
          (kalman1 s.fMy s.eMy my Q R).1 ∧
        (orientK s ax ay az mx my mz Q R E).1.fMz =
          (kalman1 s.fMz s.eMz mz Q R).1) ∧
      (¬ s.setup < CNTSETUP →
        (orientK s ax ay az mx my mz Q R E).1.fAx =
          (kalman1 s.fAx s.eAx ax Q R).1 /
            vnorm (kalman1 s.fAx s.eAx ax Q R).1 (kalman1 s.fAy s.eAy ay Q R).1
              (kalman1 s.fAz s.eAz az Q R).1 ∧
        (orientK s ax ay az mx my mz Q R E).1.fAy =
          (kalman1 s.fAy s.eAy ay Q R).1 /
            vnorm (kalman1 s.fAx s.eAx ax Q R).1 (kalman1 s.fAy s.eAy ay Q R).1
              (kalman1 s.fAz s.eAz az Q R).1 ∧
        (orientK s ax ay az mx my mz Q R E).1.fAz =
          (kalman1 s.fAz s.eAz az Q R).1 /
            vnorm (kalman1 s.fAx s.eAx ax Q R).1 (kalman1 s.fAy s.eAy ay Q R).1
              (kalman1 s.fAz s.eAz az Q R).1 ∧
        (orientK s ax ay az mx my mz Q R E).1.fMx =
          (kalman1 s.fMx s.eMx mx Q R).1 /
            vnorm (kalman1 s.fMx s.eMx mx Q R).1 (kalman1 s.fMy s.eMy my Q R).1
              (kalman1 s.fMz s.eMz mz Q R).1 ∧
        (orientK s ax ay az mx my mz Q R E).1.fMy =
          (kalman1 s.fMy s.eMy my Q R).1 /
            vnorm (kalman1 s.fMx s.eMx mx Q R).1 (kalman1 s.fMy s.eMy my Q R).1
              (kalman1 s.fMz s.eMz mz Q R).1 ∧
        (orientK s ax ay az mx my mz Q R E).1.fMz =
          (kalman1 s.fMz s.eMz mz Q R).1 /
            vnorm (kalman1 s.fMx s.eMx mx Q R).1 (kalman1 s.fMy s.eMy my Q R).1
              (kalman1 s.fMz s.eMz mz Q R).1)) ∧
    (∀ (s : OrientKState) (ax ay az mx my mz Q R E : ℝ),
      s.setup = 0 →
      (orientK s ax ay az mx my mz Q R E).1.fAx = ax ∧
      (orientK s ax ay az mx my mz Q R E).1.fAy = ay ∧
      (orientK s ax ay az mx my mz Q R E).1.fAz = az ∧
      (orientK s ax ay az mx my mz Q R E).1.fMx = mx ∧
      (orientK s ax ay az mx my mz Q R E).1.fMy = my ∧
      (orientK s ax ay az mx my mz Q R E).1.fMz = mz ∧
      (orientK s ax ay az mx my mz Q R E).1.eAx = E ∧
      (orientK s ax ay az mx my mz Q R E).1.eAy = E ∧
      (orientK s ax ay az mx my mz Q R E).1.eAz = E ∧
      (orientK s ax ay az mx my mz Q R E).1.eMx = E ∧
      (orientK s ax ay az mx my mz Q R E).1.eMy = E ∧
      (orientK s ax ay az mx my mz Q R E).1.eMz = E ∧
      (orientK s ax ay az mx my mz Q R E).2 = (1, none)) := by
  refine ⟨?_, ?_, ?_, ?_⟩
  · intro s x y z Q R E delta sample h
    simp only [motionK]
    rw [if_neg h]
    split_ifs <;> exact ⟨rfl, rfl, rfl⟩
  · intro s x y z Q R E delta sample h
    simp [motionK, h]
  · intro s ax ay az mx my mz Q R E h
    by_cases h1 : s.setup < CNTSETUP
    · simp only [orientK]
      rw [if_neg h, if_pos h1]
      exact ⟨rfl, rfl, rfl, rfl, rfl, rfl,
        fun _ => ⟨rfl, rfl, rfl, rfl, rfl, rfl⟩,
        fun hc => absurd h1 hc⟩
    · simp only [orientK]
      rw [if_neg h, if_neg h1]
      exact ⟨rfl, rfl, rfl, rfl, rfl, rfl,
        fun hc => absurd hc h1,
        fun _ => ⟨rfl, rfl, rfl, rfl, rfl, rfl⟩⟩
  · intro s ax ay az mx my mz Q R E h
    simp [orientK, h]

/-- Witness for the amended C8 at the zero-initialized motionK state:
the first call initializes the estimates to the measurements and the
errors to E. -/
theorem C8_kalman_per_epoch_witness :
    motionKinit.setup = 0 ∧
    ((motionK motionKinit 5 6 7 0 1 1 (1/10) 0).1.fX = 5 ∧
     (motionK motionKinit 5 6 7 0 1 1 (1/10) 0).1.fY = 6 ∧
     (motionK motionKinit 5 6 7 0 1 1 (1/10) 0).1.fZ = 7 ∧
     (motionK motionKinit 5 6 7 0 1 1 (1/10) 0).1.eX = 1 ∧
     (motionK motionKinit 5 6 7 0 1 1 (1/10) 0).1.eY = 1 ∧
     (motionK motionKinit 5 6 7 0 1 1 (1/10) 0).1.eZ = 1 ∧
     (motionK motionKinit 5 6 7 0 1 1 (1/10) 0).2 = 0) :=
  ⟨rfl, C8_kalman_per_epoch.2.1 motionKinit 5 6 7 0 1 1 (1/10) 0 rfl⟩

end
